import Mathlib

/-!
Verification of the runeseg Unicode text-segmentation engine.

This file gives a shallow embedding, in Lean 4, of the core of the runeseg
Go package: the grapheme-cluster state machine (`transitionGraphemeState`),
the two line-break state machines (the legacy table-driven
`transitionLineBreakState` and the context-based
`transitionLineBreakContext`), the packed line context
(`packLineContext` / `unpackLineContext`), and the fused stepping functions
`Step` / `StepString` / `FirstLineSegmentContext`.

Modelling conventions:
  - Go byte slices and strings are both `List Nat` of byte values; runes
    (code points) are `Nat`.  `utf8DecodeRune` mirrors Go's
    `unicode/utf8.DecodeRune` (which `DecodeRuneInString` matches).
  - Go `int` state tokens are `Int` (the initial state is the negative
    sentinel -1).  Values that the code keeps non-negative are `Nat`.
  - The generated Unicode property tables (binary-searched range tables in
    the repository's generated files) are abstracted as the function fields
    of a `Model`; the ASCII fast paths in front of them are translated
    literally from `properties.go`.  The word- and sentence-break
    transition functions and `runeWidth`, whose sources are not part of
    the core files, are likewise fields of `Model`, instantiated by
    spec-modelled definitions below.
  - Go `switch` tables returning `-1, -1, -1` for "no transition" become
    `Option`-valued functions (`none` = no transition).
  - Loops are embedded as fuel-indexed recursions; the fuel supplied by
    the wrappers is proven (or chosen) adequate, and every iteration
    consumes at least one byte.
-/

/-! ## Unicode property constants (from `properties.go`) -/

/-- Unknown/unassigned property value (the zero value of a table miss). -/
def prXX : Nat := 0

/-- Default/any property. -/
def prAny : Nat := 1

def prPrepend : Nat := 2
def prCR : Nat := 3
def prLF : Nat := 4
def prControl : Nat := 5
def prExtend : Nat := 6
def prRegionalIndicator : Nat := 7
def prSpacingMark : Nat := 8
def prL : Nat := 9
def prV : Nat := 10
def prT : Nat := 11
def prLV : Nat := 12
def prLVT : Nat := 13
def prZWJ : Nat := 14
def prExtendedPictographic : Nat := 15
def prNewline : Nat := 16
def prWSegSpace : Nat := 17
def prDoubleQuote : Nat := 18
def prSingleQuote : Nat := 19
def prMidNumLet : Nat := 20
def prNumeric : Nat := 21
def prMidLetter : Nat := 22
def prMidNum : Nat := 23
def prExtendNumLet : Nat := 24
def prALetter : Nat := 25
def prFormat : Nat := 26
def prHebrewLetter : Nat := 27
def prKatakana : Nat := 28
def prSp : Nat := 29
def prSTerm : Nat := 30
def prClose : Nat := 31
def prSContinue : Nat := 32
def prATerm : Nat := 33
def prUpper : Nat := 34
def prLower : Nat := 35
def prSep : Nat := 36
def prOLetter : Nat := 37
def prCM : Nat := 38
def prBA : Nat := 39
def prBK : Nat := 40
def prSP : Nat := 41
def prEX : Nat := 42
def prQU : Nat := 43
def prAL : Nat := 44
def prPR : Nat := 45
def prPO : Nat := 46
def prOP : Nat := 47
def prCP : Nat := 48
def prIS : Nat := 49
def prHY : Nat := 50
def prSY : Nat := 51
def prNU : Nat := 52
def prCL : Nat := 53
def prNL : Nat := 54
def prGL : Nat := 55
def prAI : Nat := 56
def prBB : Nat := 57
def prHL : Nat := 58
def prSA : Nat := 59
def prJL : Nat := 60
def prJV : Nat := 61
def prJT : Nat := 62
def prNS : Nat := 63
def prZW : Nat := 64
def prB2 : Nat := 65
def prIN : Nat := 66
def prWJ : Nat := 67
def prID : Nat := 68
def prEB : Nat := 69
def prCJ : Nat := 70
def prH2 : Nat := 71
def prH3 : Nat := 72
def prSG : Nat := 73
def prCB : Nat := 74
def prRI : Nat := 75
def prEM : Nat := 76
def prN : Nat := 77
def prNa : Nat := 78
def prA : Nat := 79
def prW : Nat := 80
def prH : Nat := 81
def prF : Nat := 82
def prEmojiPresentation : Nat := 83
def prALetterExtPict : Nat := 84
def prAK : Nat := 85
def prAP : Nat := 86
def prAS : Nat := 87
def prVF : Nat := 88
def prVI : Nat := 89
def prHH : Nat := 90
def prInCBNone : Nat := 91
def prInCBLinker : Nat := 92
def prInCBConsonant : Nat := 93
def prInCBExtend : Nat := 94

/-! ## Unicode general categories (from `properties.go`) -/

def gcNone : Nat := 0
def gcCc : Nat := 1
def gcZs : Nat := 2
def gcPo : Nat := 3
def gcSc : Nat := 4
def gcPs : Nat := 5
def gcPe : Nat := 6
def gcSm : Nat := 7
def gcPd : Nat := 8
def gcNd : Nat := 9
def gcLu : Nat := 10
def gcSk : Nat := 11
def gcPc : Nat := 12
def gcLl : Nat := 13
def gcSo : Nat := 14
def gcLo : Nat := 15
def gcPi : Nat := 16
def gcCf : Nat := 17
def gcNo : Nat := 18
def gcPf : Nat := 19
def gcLC : Nat := 20
def gcLm : Nat := 21
def gcMn : Nat := 22
def gcMe : Nat := 23
def gcMc : Nat := 24
def gcNl : Nat := 25
def gcZl : Nat := 26
def gcZp : Nat := 27
def gcCn : Nat := 28
def gcCs : Nat := 29
def gcCo : Nat := 30

/-- Variation Selector-15: force text presentation. -/
def vs15 : Nat := 0xfe0e

/-- Variation Selector-16: force emoji presentation. -/
def vs16 : Nat := 0xfe0f

/-! ## Go integer helpers -/

/-- The value of Go's `x & m` (bitwise AND on two's-complement `int64`)
for a non-negative mask `m`, as a `Nat`.  For non-negative `x` this is
plain `Nat` AND; for negative `x` the two's-complement bit pattern of
`x` (as `int64`, embedded in the range below `2^64`) is masked. -/
def goAnd (x : Int) (m : Nat) : Nat := (x % (2 ^ 64 : Int)).toNat &&& m

/-- The value of Go's `x &^ m` (AND NOT) for a non-negative `x`:
clearing the bits of `m` subtracts exactly the common bits. -/
def goClear (x m : Nat) : Nat := x - (x &&& m)

/-! ## UTF-8 decoding (Go `unicode/utf8.DecodeRune`)

`DecodeRuneInString` is byte-for-byte identical to `DecodeRune`, so a
single function serves the byte-slice and string variants.  The
first-byte acceptance table of the Go implementation is expressed by the
equivalent range comparisons. -/

/-- The replacement character U+FFFD returned for malformed input. -/
def RuneError : Nat := 0xFFFD

/-- Decode the first UTF-8 encoded rune of `p`, returning the rune and
the number of bytes consumed, exactly as Go's `utf8.DecodeRune`:
`(RuneError, 0)` on empty input, `(RuneError, 1)` on malformed input. -/
def utf8DecodeRune (p : List Nat) : Nat × Nat :=
  match p with
  | [] => (RuneError, 0)
  | p0 :: rest =>
    if p0 < 0x80 then (p0, 1)
    else if p0 < 0xC2 then (RuneError, 1)
    else if p0 < 0xE0 then
      -- two-byte sequence, second byte in 0x80..0xBF
      match rest with
      | [] => (RuneError, 1)
      | b1 :: _ =>
        if b1 < 0x80 ∨ 0xBF < b1 then (RuneError, 1)
        else (((p0 &&& 0x1F) <<< 6) ||| (b1 &&& 0x3F), 2)
    else if p0 < 0xF0 then
      -- three-byte sequence; E0 narrows the low bound, ED the high bound
      match rest with
      | [] => (RuneError, 1)
      | b1 :: rest1 =>
        if b1 < (if p0 = 0xE0 then 0xA0 else 0x80) ∨
            (if p0 = 0xED then 0x9F else 0xBF) < b1 then (RuneError, 1)
        else
          match rest1 with
          | [] => (RuneError, 1)
          | b2 :: _ =>
            if b2 < 0x80 ∨ 0xBF < b2 then (RuneError, 1)
            else (((p0 &&& 0x0F) <<< 12) ||| ((b1 &&& 0x3F) <<< 6) ||| (b2 &&& 0x3F), 3)
    else if p0 < 0xF5 then
      -- four-byte sequence; F0 narrows the low bound, F4 the high bound
      match rest with
      | [] => (RuneError, 1)
      | b1 :: rest1 =>
        if b1 < (if p0 = 0xF0 then 0x90 else 0x80) ∨
            (if p0 = 0xF4 then 0x8F else 0xBF) < b1 then (RuneError, 1)
        else
          match rest1 with
          | [] => (RuneError, 1)
          | b2 :: rest2 =>
            if b2 < 0x80 ∨ 0xBF < b2 then (RuneError, 1)
            else
              match rest2 with
              | [] => (RuneError, 1)
              | b3 :: _ =>
                if b3 < 0x80 ∨ 0xBF < b3 then (RuneError, 1)
                else
                  (((p0 &&& 0x07) <<< 18) ||| ((b1 &&& 0x3F) <<< 12) |||
                    ((b2 &&& 0x3F) <<< 6) ||| (b3 &&& 0x3F), 4)
    else (RuneError, 1)

/-- UTF-8 encoding of one rune (Go `utf8.EncodeRune`/`AppendRune`);
surrogates and out-of-range values encode the replacement character.
Used only to supply lookahead remainders to rune-level drivers. -/
def utf8EncodeRune (r : Nat) : List Nat :=
  if r < 0x80 then [r]
  else if r < 0x800 then [0xC0 ||| (r >>> 6), 0x80 ||| (r &&& 0x3F)]
  else if 0xD800 ≤ r ∧ r ≤ 0xDFFF then [0xEF, 0xBF, 0xBD]
  else if r < 0x10000 then
    [0xE0 ||| (r >>> 12), 0x80 ||| ((r >>> 6) &&& 0x3F), 0x80 ||| (r &&& 0x3F)]
  else if r ≤ 0x10FFFF then
    [0xF0 ||| (r >>> 18), 0x80 ||| ((r >>> 12) &&& 0x3F),
      0x80 ||| ((r >>> 6) &&& 0x3F), 0x80 ||| (r &&& 0x3F)]
  else [0xEF, 0xBF, 0xBD]

/-- UTF-8 encoding of a rune sequence. -/
def utf8Encode (rs : List Nat) : List Nat := (rs.map utf8EncodeRune).flatten

theorem utf8DecodeRune_size_pos (p : List Nat) (h : p ≠ []) :
    1 ≤ (utf8DecodeRune p).2 := by
  rcases p with _ | ⟨p0, _ | ⟨b1, _ | ⟨b2, _ | ⟨b3, rest3⟩⟩⟩⟩
  · exact absurd rfl h
  all_goals
    simp only [utf8DecodeRune]
    repeat' split
    all_goals simp

theorem utf8DecodeRune_size_le (p : List Nat) :
    (utf8DecodeRune p).2 ≤ p.length := by
  rcases p with _ | ⟨p0, _ | ⟨b1, _ | ⟨b2, _ | ⟨b3, rest3⟩⟩⟩⟩
  · simp [utf8DecodeRune]
  all_goals
    simp only [utf8DecodeRune]
    repeat' split
    all_goals simp [List.length_cons]

/-! ## The model of the generated data and of the collaborating parsers

The repository consumes its Unicode property data from generated,
binary-searched range tables (`propertySearch` over `graphemeCodePoints`,
`lineBreakCodePoints`, `eastAsianWidth`, `incbCodePoints`); the table
contents are generated data outside the core sources, so each lookup
(the value of `propertySearch` on the table, `0` entries on a miss) is a
function field here.  The word-break and sentence-break transition
functions and `runeWidth`, called by `Step` but defined in files outside
the core, are fields as well, instantiated by the spec-modelled
definitions further below. -/

structure Model where
  /-- `propertySearch(graphemeCodePoints, r)[2]`. -/
  graphemeTable : Nat → Nat
  /-- `propertySearch(lineBreakCodePoints, r)`: property and general category. -/
  lineBreakTable : Nat → Nat × Nat
  /-- `propertySearch(eastAsianWidth, r)[2]`. -/
  eawTable : Nat → Nat
  /-- `propertySearch(incbCodePoints, r)[2]`. -/
  incbTable : Nat → Nat
  /-- `transitionWordBreakState(state, r, remainder)` (byte and string
  remainders merged into one byte list). -/
  wordTransition : Int → Nat → List Nat → Nat × Bool
  /-- `transitionSentenceBreakState(state, r, remainder)`. -/
  sentenceTransition : Int → Nat → List Nat → Nat × Bool
  /-- `runeWidth(r, graphemeProperty)`. -/
  runeWidthFn : Nat → Nat → Nat
  /-- The word parser's initial/default state constant `wbAny`. -/
  wbAny : Nat
  /-- The sentence parser's initial/default state constant `sbAny`. -/
  sbAny : Nat

/-- `propertyGraphemes` from `properties.go`: grapheme cluster property
with the ASCII fast paths. -/
def propertyGraphemes (M : Model) (r : Nat) : Nat :=
  if 0x20 ≤ r ∧ r ≤ 0x7e then prAny
  else if r = 0x0a then prLF
  else if r = 0x0d then prCR
  else if r ≤ 0x1f ∨ r = 0x7f then prControl
  else M.graphemeTable r

/-- `propertyLineBreak` from `properties.go`: line break property and
general category, fast-tracking ASCII letters and digits. -/
def propertyLineBreak (M : Model) (r : Nat) : Nat × Nat :=
  if 0x61 ≤ r ∧ r ≤ 0x7a then (prAL, gcLl)
  else if 0x41 ≤ r ∧ r ≤ 0x5a then (prAL, gcLu)
  else if 0x30 ≤ r ∧ r ≤ 0x39 then (prNU, gcNd)
  else M.lineBreakTable r

/-- `propertyEastAsianWidth` from `properties.go`. -/
def propertyEastAsianWidth (M : Model) (r : Nat) : Nat :=
  if 0x20 ≤ r ∧ r ≤ 0x7e then prNa
  else if r ≤ 0x1f ∨ r = 0x7f then prN
  else M.eawTable r

/-- `propertyInCB` from `properties.go`: Indic_Conjunct_Break property,
fast-tracking code points below U+0300. -/
def propertyInCB (M : Model) (r : Nat) : Nat :=
  if r < 0x300 then prInCBNone
  else M.incbTable r

/-! ## Grapheme cluster parser (from `properties.go` / the grapheme rules file) -/

def grAny : Nat := 0
def grCR : Nat := 1
def grControlLF : Nat := 2
def grL : Nat := 3
def grLVV : Nat := 4
def grLVTT : Nat := 5
def grPrepend : Nat := 6
def grExtendedPictographic : Nat := 7
def grExtendedPictographicZWJ : Nat := 8
def grRIOdd : Nat := 9
def grRIEven : Nat := 10

def grInCBConsonant : Nat := 0x0100
def grInCBExtend : Nat := 0x0200
def grInCBLinker : Nat := 0x0300
def grInCBMask : Nat := 0x0F00

def grNoBoundary : Nat := 0
def grBoundary : Nat := 1

/-- A first-match association-table lookup: the shallow embedding of a
Go `switch` over an exact key (the first entry whose key equals the
argument wins; `none` when no case matches). -/
def tableLookup {α : Type} [DecidableEq α] {β : Type} : List (α × β) → α → Option β
  | [], _ => none
  | (k, v) :: rest, key => if key = k then some v else tableLookup rest key

theorem tableLookup_some {α : Type} [DecidableEq α] {β : Type} (P : β → Prop) :
    ∀ (l : List (α × β)) (key : α) (v : β), (∀ e ∈ l, P e.2) →
      tableLookup l key = some v → P v := by
  intro l
  induction l with
  | nil => intro key v _ h; exact Option.noConfusion h
  | cons e rest ih =>
    intro key v hall h
    obtain ⟨k, w⟩ := e
    simp only [tableLookup] at h
    split at h
    · injection h with h1
      subst h1
      exact hall (k, w) (by simp)
    · exact ih key v (fun e he => hall e (by simp [he])) h

/-- The entries of `grTransitions`: the grapheme cluster parser's
transition table, keyed by (state, property):
(new state, breaking instruction, rule number). -/
def grTransitionTable : List ((Nat × Nat) × (Nat × Nat × Nat)) := [
  ((grAny, prCR), (grCR, grBoundary, 50)),
  ((grAny, prLF), (grControlLF, grBoundary, 50)),
  ((grAny, prControl), (grControlLF, grBoundary, 50)),
  ((grCR, prAny), (grAny, grBoundary, 40)),
  ((grControlLF, prAny), (grAny, grBoundary, 40)),
  ((grCR, prLF), (grControlLF, grNoBoundary, 30)),
  ((grAny, prL), (grL, grBoundary, 9990)),
  ((grL, prL), (grL, grNoBoundary, 60)),
  ((grL, prV), (grLVV, grNoBoundary, 60)),
  ((grL, prLV), (grLVV, grNoBoundary, 60)),
  ((grL, prLVT), (grLVTT, grNoBoundary, 60)),
  ((grAny, prLV), (grLVV, grBoundary, 9990)),
  ((grAny, prV), (grLVV, grBoundary, 9990)),
  ((grLVV, prV), (grLVV, grNoBoundary, 70)),
  ((grLVV, prT), (grLVTT, grNoBoundary, 70)),
  ((grAny, prLVT), (grLVTT, grBoundary, 9990)),
  ((grAny, prT), (grLVTT, grBoundary, 9990)),
  ((grLVTT, prT), (grLVTT, grNoBoundary, 80)),
  ((grAny, prExtend), (grAny, grNoBoundary, 90)),
  ((grAny, prZWJ), (grAny, grNoBoundary, 90)),
  ((grAny, prSpacingMark), (grAny, grNoBoundary, 91)),
  ((grAny, prPrepend), (grPrepend, grBoundary, 9990)),
  ((grPrepend, prAny), (grAny, grNoBoundary, 92)),
  ((grAny, prExtendedPictographic), (grExtendedPictographic, grBoundary, 9990)),
  ((grExtendedPictographic, prExtend), (grExtendedPictographic, grNoBoundary, 110)),
  ((grExtendedPictographic, prZWJ), (grExtendedPictographicZWJ, grNoBoundary, 110)),
  ((grExtendedPictographicZWJ, prExtendedPictographic), (grExtendedPictographic, grNoBoundary, 110)),
  ((grAny, prRegionalIndicator), (grRIOdd, grBoundary, 9990)),
  ((grRIOdd, prRegionalIndicator), (grRIEven, grNoBoundary, 120)),
  ((grRIEven, prRegionalIndicator), (grRIOdd, grBoundary, 120))]

/-- `grTransitions` (`none` stands for the Go function's negative "no
transition" result). -/
def grTransitions (state prop : Nat) : Option (Nat × Nat × Nat) :=
  tableLookup grTransitionTable (state, prop)


/-- `transitionGraphemeState`: new state (base state plus InCB bits),
the code point's grapheme property, and whether a cluster boundary was
detected. -/
def transitionGraphemeState (M : Model) (state : Int) (r : Nat) : Nat × Nat × Bool :=
  let prop := propertyGraphemes M r
  let incbState := goAnd state grInCBMask
  let st := goAnd state 0xFF
  let incbProp := propertyInCB M r
  let base :=
    match grTransitions st prop with
    | some (ns, np, _) => (ns, np == grBoundary)
    | none =>
      match grTransitions st prAny, grTransitions grAny prop with
      | some (_, app, apr), some (ass, asp, asr) =>
        (ass, if apr < asr then app == grBoundary else asp == grBoundary)
      | some (aps, app, _), none => (aps, app == grBoundary)
      | none, some (ass, asp, _) => (ass, asp == grBoundary)
      | none, none => (grAny, true)
  let newState := base.1
  let boundary := base.2
  -- GB9c: Indic conjunct clusters, tracked in the orthogonal InCB bits.
  if incbProp = prInCBConsonant then
    (newState ||| grInCBConsonant,
      prop, if incbState = grInCBLinker then false else boundary)
  else if incbProp = prInCBLinker then
    (if incbState = grInCBConsonant ∨ incbState = grInCBExtend ∨ incbState = grInCBLinker
      then newState ||| grInCBLinker else newState, prop, boundary)
  else if incbProp = prInCBExtend then
    (if incbState = grInCBConsonant then newState ||| grInCBExtend
      else if incbState = grInCBExtend then newState ||| grInCBExtend
      else if incbState = grInCBLinker then newState ||| grInCBLinker
      else newState, prop, boundary)
  else (newState, prop, boundary)

/-! ## Line break verdicts (from `linebreak.go`) -/

def LineDontBreak : Nat := 0
def LineCanBreak : Nat := 1
def LineMustBreak : Nat := 2

/-! ## Context-based line breaking (from the `linecontext.go` part)

Context flags and base states for the context machine. -/

def lbCtxSot : Nat := 1
def lbCtxAfterQUPi : Nat := 2
def lbCtxQUPiSP : Nat := 4
def lbCtxAfterZWJ : Nat := 16
def lbCtxCPeaFWH : Nat := 32
def lbCtxAksaraVirama : Nat := 128

def lbcAny : Nat := 0
def lbcCR : Nat := 1
def lbcLF : Nat := 2
def lbcBK : Nat := 3
def lbcNL : Nat := 4
def lbcSP : Nat := 5
def lbcZW : Nat := 6
def lbcWJ : Nat := 7
def lbcGL : Nat := 8
def lbcBA : Nat := 9
def lbcHY : Nat := 10
def lbcCL : Nat := 11
def lbcCP : Nat := 12
def lbcEX : Nat := 13
def lbcIS : Nat := 14
def lbcSY : Nat := 15
def lbcOP : Nat := 16
def lbcQU : Nat := 17
def lbcNS : Nat := 18
def lbcAL : Nat := 19
def lbcHL : Nat := 20
def lbcNU : Nat := 21
def lbcPR : Nat := 22
def lbcPO : Nat := 23
def lbcID : Nat := 24
def lbcEB : Nat := 25
def lbcEM : Nat := 26
def lbcIN : Nat := 27
def lbcCB : Nat := 28
def lbcB2 : Nat := 29
def lbcRI : Nat := 30
def lbcZWJ : Nat := 31
def lbcCM : Nat := 32
def lbcAK : Nat := 33
def lbcAP : Nat := 34
def lbcAS : Nat := 35
def lbcVI : Nat := 36
def lbcVF : Nat := 37
def lbcAKVI : Nat := 38
def lbcHH : Nat := 39
def lbcJL : Nat := 40
def lbcJV : Nat := 41
def lbcJT : Nat := 42
def lbcH2 : Nat := 43
def lbcH3 : Nat := 44
def lbcRIOdd : Nat := 45
def lbcRIEven : Nat := 46
def lbcB2SP : Nat := 47
def lbcCLCP : Nat := 48
def lbcQUSP : Nat := 49
def lbcOPSP : Nat := 50
def lbcQUPi : Nat := 51
def lbcQUPiSP : Nat := 52
def lbcZWSP : Nat := 53
def lbcHLHY : Nat := 54
def lbcSotHY : Nat := 55
def lbcSotHH : Nat := 56
def lbcDottedCircle : Nat := 57
def lbcBB : Nat := 58
def lbcExtPic : Nat := 59
def lbcExtPicCn : Nat := 60
def lbcExtPicZWJ : Nat := 61

/-- `LineContext`: the complete line breaking state of the context
machine, a base state together with context flags. -/
structure LineContext where
  State : Int
  Flags : Nat
deriving DecidableEq

/-- `packLineContext`: pack a context into an integer,
`[flags: 8 bits][state: 8 bits]`. -/
def packLineContext (ctx : LineContext) : Nat :=
  (ctx.Flags <<< 8) ||| goAnd ctx.State 0xFF

/-- `unpackLineContext`: unpack; any negative value is the initial
context (state -1 with the start-of-text flag). -/
def unpackLineContext (packed : Int) : LineContext :=
  if packed < 0 then ⟨-1, lbCtxSot⟩
  else ⟨(packed.toNat &&& 0xFF : Nat), (packed.toNat >>> 8) &&& 0xFF⟩

/-- `propToState`: line break property to base state, `lbcAL` by default. -/
def propToState (prop : Nat) : Nat :=
  if prop = prBK then lbcBK
  else if prop = prCR then lbcCR
  else if prop = prLF then lbcLF
  else if prop = prNL then lbcNL
  else if prop = prSP then lbcSP
  else if prop = prZW then lbcZW
  else if prop = prWJ then lbcWJ
  else if prop = prGL then lbcGL
  else if prop = prBA then lbcBA
  else if prop = prHY then lbcHY
  else if prop = prCL then lbcCL
  else if prop = prCP then lbcCP
  else if prop = prEX then lbcEX
  else if prop = prIS then lbcIS
  else if prop = prSY then lbcSY
  else if prop = prOP then lbcOP
  else if prop = prQU then lbcQU
  else if prop = prNS then lbcNS
  else if prop = prAL then lbcAL
  else if prop = prHL then lbcHL
  else if prop = prNU then lbcNU
  else if prop = prPR then lbcPR
  else if prop = prPO then lbcPO
  else if prop = prID then lbcID
  else if prop = prEB then lbcEB
  else if prop = prEM then lbcEM
  else if prop = prIN then lbcIN
  else if prop = prCB then lbcCB
  else if prop = prRI then lbcRI
  else if prop = prZWJ then lbcZWJ
  else if prop = prCM then lbcCM
  else if prop = prAK then lbcAK
  else if prop = prAP then lbcAP
  else if prop = prAS then lbcAS
  else if prop = prVI then lbcVI
  else if prop = prVF then lbcVF
  else if prop = prHH then lbcHH
  else if prop = prB2 then lbcB2
  else if prop = prBB then lbcBB
  else if prop = prExtendedPictographic then lbcExtPic
  else if prop = prH2 then lbcH2
  else if prop = prH3 then lbcH3
  else if prop = prJL then lbcJL
  else if prop = prJV then lbcJV
  else if prop = prJT then lbcJT
  else lbcAL

/-- `nextContext`: the context after seeing a character, updating the
QU_Pi, QU_Pi-SP and CP-East-Asian-width flags. -/
def nextContext (M : Model) (ctx : LineContext) (newState : Nat)
    (prop r genCat : Nat) : LineContext :=
  let f1 := if prop = prQU ∧ genCat = gcPi then ctx.Flags ||| lbCtxAfterQUPi else ctx.Flags
  let f2 := if prop = prSP ∧ ctx.Flags &&& lbCtxAfterQUPi ≠ 0 then f1 ||| lbCtxQUPiSP else f1
  let f3 :=
    if prop = prCP then
      if propertyEastAsianWidth M r = prF ∨ propertyEastAsianWidth M r = prW ∨
          propertyEastAsianWidth M r = prH then f2 ||| lbCtxCPeaFWH
      else goClear f2 lbCtxCPeaFWH
    else f2
  ⟨newState, f3⟩

/-- `applyBreak`: apply a break, clearing the start-of-text and
quotation flags. -/
def applyBreak (M : Model) (ctx : LineContext) (prop r genCat breakType : Nat) :
    LineContext × Nat :=
  let newCtx := nextContext M ctx (propToState prop) prop r genCat
  (⟨newCtx.State, goClear (goClear (goClear newCtx.Flags lbCtxSot) lbCtxQUPiSP) lbCtxAfterQUPi⟩,
    breakType)

/-- `applyLB25`: the simplified LB25 numeric rules (`none` stands for
the Go function's -1, "no rule applies"). -/
def applyLB25 (ctx : LineContext) (prop : Nat) : Option Nat :=
  if ctx.State = (lbcNU : Nat) ∧ (prop = prPO ∨ prop = prPR) then some LineDontBreak
  else if (ctx.State = (lbcPO : Nat) ∨ ctx.State = (lbcPR : Nat) ∨ ctx.State = (lbcHY : Nat) ∨
      ctx.State = (lbcIS : Nat) ∨ ctx.State = (lbcNU : Nat)) ∧ prop = prNU then
    some LineDontBreak
  else none

/-- `applyLB28a`: the LB28a Aksara rules (`none` = no rule applies). -/
def applyLB28a (ctx : LineContext) (prop : Nat) (isDottedCircle : Bool) : Option Nat :=
  if ctx.State = (lbcAP : Nat) ∧ (prop = prAK ∨ prop = prAS ∨ isDottedCircle) then
    some LineDontBreak
  else if (ctx.State = (lbcAK : Nat) ∨ ctx.State = (lbcDottedCircle : Nat) ∨
      ctx.State = (lbcAS : Nat)) ∧ (prop = prVF ∨ prop = prVI) then
    some LineDontBreak
  else if ctx.State = (lbcAKVI : Nat) ∧ (prop = prAK ∨ prop = prAS ∨ isDottedCircle) then
    some LineDontBreak
  else none

/-- `transitionLineBreakContext`: the context machine's main entry
point.  The byte-slice and string lookahead arguments of the Go function
are merged into the single byte list `rem`; the end-of-text test
`len(b) == 0 && str == ""` becomes `rem = []`. -/
def transitionLineBreakContext (M : Model) (ctx0 : LineContext) (r : Nat)
    (rem : List Nat) : LineContext × Nat :=
  let pg := propertyLineBreak M r
  -- LB1: resolve ambiguous properties
  let prop :=
    if pg.1 = prAI ∨ pg.1 = prSG ∨ pg.1 = prXX then prAL
    else if pg.1 = prSA then (if pg.2 = gcMn ∨ pg.2 = gcMc then prCM else prAL)
    else if pg.1 = prCJ then prNS
    else pg.1
  let genCat := pg.2
  -- handle initial state
  let ctx := if ctx0.State < 0 then (⟨lbcAny, lbCtxSot⟩ : LineContext) else ctx0
  -- combining marks (LB9-LB10), before mandatory breaks
  if prop = prCM ∨ prop = prZWJ then
    let isSpaceLike := ctx.State = (lbcSP : Nat) ∨ ctx.State = (lbcB2SP : Nat) ∨
      ctx.State = (lbcQUSP : Nat) ∨ ctx.State = (lbcCLCP : Nat) ∨ ctx.State = (lbcZWSP : Nat)
    let isMandatoryBreak := ctx.State = (lbcBK : Nat) ∨ ctx.State = (lbcCR : Nat) ∨
      ctx.State = (lbcLF : Nat) ∨ ctx.State = (lbcNL : Nat) ∨ ctx.State = (lbcZW : Nat)
    let isInitial := ctx.State = (lbcAny : Nat)
    if ¬isSpaceLike ∧ ¬isMandatoryBreak ∧ ¬isInitial then
      -- LB9: keep current state, update the ZWJ flag
      (⟨ctx.State,
        if prop = prZWJ then ctx.Flags ||| lbCtxAfterZWJ else goClear ctx.Flags lbCtxAfterZWJ⟩,
        LineDontBreak)
    else
      -- LB10: treat CM/ZWJ as AL if no base
      let nc0 := nextContext M ctx lbcAL prAL r genCat
      let newCtx : LineContext :=
        ⟨nc0.State, if prop = prZWJ then nc0.Flags ||| lbCtxAfterZWJ else nc0.Flags⟩
      if isMandatoryBreak then (newCtx, LineMustBreak)
      else if isSpaceLike then (newCtx, LineCanBreak)
      else (newCtx, LineDontBreak)
  -- LB4: BK !
  else if ctx.State = (lbcBK : Nat) then applyBreak M ctx prop r genCat LineMustBreak
  -- LB5: CR x LF, CR !, LF !, NL !
  else if ctx.State = (lbcCR : Nat) then
    if prop = prLF then (nextContext M ctx lbcLF prop r genCat, LineDontBreak)
    else applyBreak M ctx prop r genCat LineMustBreak
  else if ctx.State = (lbcLF : Nat) ∨ ctx.State = (lbcNL : Nat) then
    applyBreak M ctx prop r genCat LineMustBreak
  -- LB6: x (BK | CR | LF | NL)
  else if prop = prBK ∨ prop = prCR ∨ prop = prLF ∨ prop = prNL then
    (nextContext M ctx (propToState prop) prop r genCat, LineDontBreak)
  -- LB7: x SP, x ZW
  else if prop = prSP ∨ prop = prZW then
    let newState :=
      if prop = prZW then lbcZW
      else if ctx.State = (lbcZW : Nat) ∨ ctx.State = (lbcZWSP : Nat) then lbcZWSP
      else if ctx.State = (lbcB2 : Nat) ∨ ctx.State = (lbcB2SP : Nat) then lbcB2SP
      else if ctx.State = (lbcCL : Nat) ∨ ctx.State = (lbcCP : Nat) ∨
        ctx.State = (lbcCLCP : Nat) then lbcCLCP
      else if ctx.State = (lbcOP : Nat) ∨ ctx.State = (lbcOPSP : Nat) then lbcOPSP
      else if ctx.State = (lbcQUPi : Nat) ∨ ctx.State = (lbcQUPiSP : Nat) then lbcQUPiSP
      else lbcSP
    let nc := nextContext M ctx newState prop r genCat
    (⟨nc.State, goClear nc.Flags lbCtxAfterZWJ⟩, LineDontBreak)
  -- LB8: ZW SP* /
  else if ctx.State = (lbcZW : Nat) ∨ ctx.State = (lbcZWSP : Nat) then
    applyBreak M ctx prop r genCat LineCanBreak
  -- LB8a: ZWJ x
  else if ctx.Flags &&& lbCtxAfterZWJ ≠ 0 then
    let nc := nextContext M ctx (propToState prop) prop r genCat
    (⟨nc.State, goClear nc.Flags lbCtxAfterZWJ⟩, LineDontBreak)
  -- LB11: x WJ, WJ x
  else if prop = prWJ ∨ ctx.State = (lbcWJ : Nat) then
    (nextContext M ctx (propToState prop) prop r genCat, LineDontBreak)
  -- LB12: GL x
  else if ctx.State = (lbcGL : Nat) then
    (nextContext M ctx (propToState prop) prop r genCat, LineDontBreak)
  -- LB12a: [^SP BA HY] x GL
  else if prop = prGL ∧
      ¬(ctx.State = (lbcSP : Nat) ∨ ctx.State = (lbcB2SP : Nat) ∨ ctx.State = (lbcQUSP : Nat) ∨
        ctx.State = (lbcCLCP : Nat) ∨ ctx.State = (lbcZWSP : Nat)) ∧
      ctx.State ≠ (lbcBA : Nat) ∧ ctx.State ≠ (lbcHY : Nat) ∧ ctx.State ≠ (lbcHH : Nat) ∧
      ctx.State ≠ (lbcHLHY : Nat) then
    (nextContext M ctx lbcGL prop r genCat, LineDontBreak)
  -- LB13: x CL, x CP, x EX, x IS, x SY
  else if prop = prCL ∨ prop = prCP ∨ prop = prEX ∨ prop = prIS ∨ prop = prSY then
    (nextContext M ctx (propToState prop) prop r genCat, LineDontBreak)
  -- LB14: OP SP* x
  else if ctx.State = (lbcOP : Nat) ∨ ctx.State = (lbcOPSP : Nat) then
    (nextContext M ctx (propToState prop) prop r genCat, LineDontBreak)
  -- LB15.1: sot (QU_Pi SP*)+ x OP
  else if ctx.Flags &&& lbCtxSot ≠ 0 ∧ ctx.Flags &&& lbCtxQUPiSP ≠ 0 ∧ prop = prOP then
    (nextContext M ctx lbcOP prop r genCat, LineDontBreak)
  -- LB15.2: SP x QU_Pf eot
  else if (ctx.State = (lbcSP : Nat) ∨ ctx.State = (lbcB2SP : Nat) ∨
      ctx.State = (lbcCLCP : Nat) ∨ ctx.State = (lbcQUSP : Nat)) ∧
      prop = prQU ∧ genCat = gcPf ∧ rem = [] then
    (nextContext M ctx lbcQU prop r genCat, LineDontBreak)
  -- LB16: (CL|CP) SP* x NS
  else if (ctx.State = (lbcCL : Nat) ∨ ctx.State = (lbcCP : Nat) ∨
      ctx.State = (lbcCLCP : Nat)) ∧ prop = prNS then
    (nextContext M ctx lbcNS prop r genCat, LineDontBreak)
  -- LB17: B2 SP* x B2
  else if ctx.State = (lbcB2 : Nat) ∧ prop = prB2 then
    (nextContext M ctx lbcB2 prop r genCat, LineDontBreak)
  else if ctx.State = (lbcB2SP : Nat) ∧ prop = prB2 then
    (nextContext M ctx lbcB2 prop r genCat, LineDontBreak)
  -- LB18: SP /
  else if ctx.State = (lbcSP : Nat) ∨ ctx.State = (lbcQUSP : Nat) ∨
      ctx.State = (lbcB2SP : Nat) ∨ ctx.State = (lbcCLCP : Nat) then
    applyBreak M ctx prop r genCat LineCanBreak
  -- LB19: x QU, QU x
  else if prop = prQU then
    (nextContext M ctx (if genCat = gcPi then lbcQUPi else lbcQU) prop r genCat, LineDontBreak)
  else if ctx.State = (lbcQU : Nat) ∨ ctx.State = (lbcQUPi : Nat) ∨
      ctx.State = (lbcQUPiSP : Nat) then
    (nextContext M ctx (propToState prop) prop r genCat, LineDontBreak)
  -- LB20.1: (HY|HH) x (AL|HL), the HY variant only at start of text
  else if ctx.State = (lbcHH : Nat) ∧ (prop = prAL ∨ prop = prHL) then
    (nextContext M ctx (propToState prop) prop r genCat, LineDontBreak)
  else if ctx.Flags &&& lbCtxSot ≠ 0 ∧ ctx.State = (lbcHY : Nat) ∧
      (prop = prAL ∨ prop = prHL) then
    (nextContext M ctx (propToState prop) prop r genCat, LineDontBreak)
  -- LB20: / CB, CB /
  else if prop = prCB then
    (nextContext M ctx lbcCB prop r genCat, LineCanBreak)
  else if ctx.State = (lbcCB : Nat) then
    applyBreak M ctx prop r genCat LineCanBreak
  -- LB21: x BA, x HY, x NS, x HH (LB21.02)
  else if prop = prBA ∨ prop = prHY ∨ prop = prNS ∨ prop = prHH then
    (nextContext M ctx (propToState prop) prop r genCat, LineDontBreak)
  -- LB21: BB x
  else if ctx.State = (lbcBB : Nat) then
    (nextContext M ctx (propToState prop) prop r genCat, LineDontBreak)
  -- LB21a: HL (HY|BA) x
  else if ctx.State = (lbcHLHY : Nat) then
    (nextContext M ctx (propToState prop) prop r genCat, LineDontBreak)
  -- track HL followed by HY/BA for LB21a
  else if ctx.State = (lbcHL : Nat) ∧ (prop = prHY ∨ prop = prBA) then
    ((⟨lbcHLHY, ctx.Flags⟩ : LineContext), LineDontBreak)
  -- LB21b: SY x HL
  else if ctx.State = (lbcSY : Nat) ∧ prop = prHL then
    (nextContext M ctx lbcHL prop r genCat, LineDontBreak)
  -- LB22: x IN
  else if prop = prIN then
    (nextContext M ctx lbcIN prop r genCat, LineDontBreak)
  -- LB23: (AL|HL) x NU, NU x (AL|HL)
  else if (ctx.State = (lbcAL : Nat) ∨ ctx.State = (lbcHL : Nat) ∨
      ctx.State = (lbcDottedCircle : Nat)) ∧ prop = prNU then
    (nextContext M ctx lbcNU prop r genCat, LineDontBreak)
  else if ctx.State = (lbcNU : Nat) ∧ (prop = prAL ∨ prop = prHL) then
    (nextContext M ctx (propToState prop) prop r genCat, LineDontBreak)
  -- LB23a: PR x (ID|EB|EM), (ID|EB|EM) x PO
  else if ctx.State = (lbcPR : Nat) ∧ (prop = prID ∨ prop = prEB ∨ prop = prEM) then
    (nextContext M ctx (propToState prop) prop r genCat, LineDontBreak)
  else if (ctx.State = (lbcID : Nat) ∨ ctx.State = (lbcEB : Nat) ∨
      ctx.State = (lbcEM : Nat) ∨ ctx.State = (lbcExtPic : Nat) ∨
      ctx.State = (lbcExtPicCn : Nat)) ∧ prop = prPO then
    (nextContext M ctx lbcPO prop r genCat, LineDontBreak)
  -- LB24: (PR|PO) x (AL|HL), (AL|HL) x (PR|PO)
  else if (ctx.State = (lbcPR : Nat) ∨ ctx.State = (lbcPO : Nat)) ∧
      (prop = prAL ∨ prop = prHL) then
    (nextContext M ctx (propToState prop) prop r genCat, LineDontBreak)
  else if (ctx.State = (lbcAL : Nat) ∨ ctx.State = (lbcHL : Nat) ∨
      ctx.State = (lbcDottedCircle : Nat)) ∧ (prop = prPR ∨ prop = prPO) then
    (nextContext M ctx (propToState prop) prop r genCat, LineDontBreak)
  -- LB25: numeric sequences
  else if (applyLB25 ctx prop).isSome then
    (nextContext M ctx (propToState prop) prop r genCat,
      (applyLB25 ctx prop).getD LineCanBreak)
  -- LB26: Korean syllable blocks
  else if ctx.State = (lbcJL : Nat) ∧
      (prop = prJL ∨ prop = prJV ∨ prop = prH2 ∨ prop = prH3) then
    (nextContext M ctx (propToState prop) prop r genCat, LineDontBreak)
  else if (ctx.State = (lbcJV : Nat) ∨ ctx.State = (lbcH2 : Nat)) ∧
      (prop = prJV ∨ prop = prJT) then
    (nextContext M ctx (propToState prop) prop r genCat, LineDontBreak)
  else if (ctx.State = (lbcJT : Nat) ∨ ctx.State = (lbcH3 : Nat)) ∧ prop = prJT then
    (nextContext M ctx lbcJT prop r genCat, LineDontBreak)
  -- LB27
  else if (ctx.State = (lbcJL : Nat) ∨ ctx.State = (lbcJV : Nat) ∨
      ctx.State = (lbcJT : Nat) ∨ ctx.State = (lbcH2 : Nat) ∨ ctx.State = (lbcH3 : Nat)) ∧
      (prop = prIN ∨ prop = prPO) then
    (nextContext M ctx (propToState prop) prop r genCat, LineDontBreak)
  else if ctx.State = (lbcPR : Nat) ∧
      (prop = prJL ∨ prop = prJV ∨ prop = prJT ∨ prop = prH2 ∨ prop = prH3) then
    (nextContext M ctx (propToState prop) prop r genCat, LineDontBreak)
  -- LB28a: Aksara (the Dotted Circle U+25CC acts like AK)
  else if (applyLB28a ctx prop (r == 0x25CC)).isSome then
    let newState :=
      if prop = prAK ∨ prop = prAS then lbcAK
      else if r = 0x25CC then lbcDottedCircle
      else if prop = prVI then
        (if ctx.State = (lbcAK : Nat) ∨ ctx.State = (lbcAS : Nat) ∨
          ctx.State = (lbcDottedCircle : Nat) then lbcAKVI else lbcVI)
      else propToState prop
    let nc := nextContext M ctx newState prop r genCat
    let nc2 : LineContext :=
      if prop = prVI ∨ prop = prVF then ⟨nc.State, nc.Flags ||| lbCtxAksaraVirama⟩
      else if prop ≠ prCM ∧ prop ≠ prZWJ then ⟨nc.State, goClear nc.Flags lbCtxAksaraVirama⟩
      else nc
    (nc2, (applyLB28a ctx prop (r == 0x25CC)).getD LineCanBreak)
  -- Dotted Circle: acts like AL but transitions to lbcDottedCircle
  else if r = 0x25CC then
    let nc := nextContext M ctx lbcDottedCircle prop r genCat
    if ctx.State = (lbcAL : Nat) ∨ ctx.State = (lbcHL : Nat) ∨
        ctx.State = (lbcDottedCircle : Nat) then (nc, LineDontBreak)
    else if ctx.State = (lbcPR : Nat) ∨ ctx.State = (lbcPO : Nat) then (nc, LineDontBreak)
    else if ctx.State = (lbcNU : Nat) then (nc, LineDontBreak)
    else if ctx.State = (lbcIS : Nat) then (nc, LineDontBreak)
    else if ctx.State = (lbcCP : Nat) ∧ ctx.Flags &&& lbCtxCPeaFWH = 0 then (nc, LineDontBreak)
    else (nc, LineCanBreak)
  -- AK, AS, AP, VF, VI not matched by LB28a
  else if prop = prAK ∨ prop = prAS then
    (nextContext M ctx lbcAK prop r genCat, LineCanBreak)
  else if prop = prAP then (nextContext M ctx lbcAP prop r genCat, LineCanBreak)
  else if prop = prVF then (nextContext M ctx lbcVF prop r genCat, LineCanBreak)
  else if prop = prVI then (nextContext M ctx lbcVI prop r genCat, LineCanBreak)
  -- LB28: (AL|HL) x (AL|HL)
  else if (ctx.State = (lbcAL : Nat) ∨ ctx.State = (lbcHL : Nat) ∨
      ctx.State = (lbcDottedCircle : Nat)) ∧ (prop = prAL ∨ prop = prHL) then
    (nextContext M ctx (propToState prop) prop r genCat, LineDontBreak)
  -- LB29: IS x (AL|HL)
  else if ctx.State = (lbcIS : Nat) ∧ (prop = prAL ∨ prop = prHL) then
    (nextContext M ctx (propToState prop) prop r genCat, LineDontBreak)
  -- LB30: (AL|HL|NU) x OP unless the OP is East Asian F/W/H
  else if (ctx.State = (lbcAL : Nat) ∨ ctx.State = (lbcHL : Nat) ∨
      ctx.State = (lbcNU : Nat) ∨ ctx.State = (lbcDottedCircle : Nat)) ∧ prop = prOP ∧
      ¬(propertyEastAsianWidth M r = prF ∨ propertyEastAsianWidth M r = prW ∨
        propertyEastAsianWidth M r = prH) then
    (nextContext M ctx lbcOP prop r genCat, LineDontBreak)
  -- LB30: CP x (AL|HL|NU) unless the CP was East Asian F/W/H
  else if ctx.State = (lbcCP : Nat) ∧ ctx.Flags &&& lbCtxCPeaFWH = 0 ∧
      (prop = prAL ∨ prop = prHL ∨ prop = prNU) then
    (nextContext M ctx (propToState prop) prop r genCat, LineDontBreak)
  -- LB30a: sot (RI RI)* RI x RI
  else if prop = prRI then
    if ctx.State = (lbcRIOdd : Nat) ∨ ctx.State = (lbcRI : Nat) then
      (nextContext M ctx lbcRIEven prop r genCat, LineDontBreak)
    else if ctx.State = (lbcRIEven : Nat) then
      (nextContext M ctx lbcRIOdd prop r genCat, LineCanBreak)
    else
      (nextContext M ctx lbcRIOdd prop r genCat, LineCanBreak)
  -- LB30b: EB x EM, ExtPic x EM
  else if (ctx.State = (lbcEB : Nat) ∨ ctx.State = (lbcExtPic : Nat) ∨
      ctx.State = (lbcExtPicCn : Nat) ∨ ctx.State = (lbcExtPicZWJ : Nat)) ∧ prop = prEM then
    (nextContext M ctx lbcEM prop r genCat, LineDontBreak)
  -- track Extended Pictographic, including unassigned code points
  else if prop = prExtendedPictographic then
    (nextContext M ctx lbcExtPic prop r genCat, LineCanBreak)
  else if propertyGraphemes M r = prExtendedPictographic ∧ genCat = gcCn then
    (nextContext M ctx lbcExtPicCn prop r genCat, LineCanBreak)
  -- LB31: ALL / ALL
  else applyBreak M ctx prop r genCat LineCanBreak

/-- `transitionLineBreakStateContext`: the `Step`-compatible wrapper
around the context machine, packing the context into an integer state. -/
def transitionLineBreakStateContext (M : Model) (state : Int) (r : Nat)
    (rem : List Nat) : Nat × Nat :=
  let res := transitionLineBreakContext M (unpackLineContext state) r rem
  (packLineContext res.1, res.2)

/-! ## Legacy table-driven line breaking (from the `linerules.go` part) -/

def lbAny : Nat := 0
def lbBK : Nat := 1
def lbCR : Nat := 2
def lbLF : Nat := 3
def lbNL : Nat := 4
def lbSP : Nat := 5
def lbZW : Nat := 6
def lbWJ : Nat := 7
def lbGL : Nat := 8
def lbBA : Nat := 9
def lbHY : Nat := 10
def lbCL : Nat := 11
def lbCP : Nat := 12
def lbEX : Nat := 13
def lbIS : Nat := 14
def lbSY : Nat := 15
def lbOP : Nat := 16
def lbQU : Nat := 17
def lbQUPi : Nat := 18
def lbQUSP : Nat := 19
def lbQUPiSP : Nat := 20
def lbNS : Nat := 21
def lbCLCPSP : Nat := 22
def lbB2 : Nat := 23
def lbB2SP : Nat := 24
def lbCB : Nat := 25
def lbBB : Nat := 26
def lbLB21a : Nat := 27
def lbHL : Nat := 28
def lbAL : Nat := 29
def lbNU : Nat := 30
def lbPR : Nat := 31
def lbEB : Nat := 32
def lbIDEM : Nat := 33
def lbNUNU : Nat := 34
def lbNUSY : Nat := 35
def lbNUIS : Nat := 36
def lbNUCL : Nat := 37
def lbNUCP : Nat := 38
def lbPO : Nat := 39
def lbJL : Nat := 40
def lbJV : Nat := 41
def lbJT : Nat := 42
def lbH2 : Nat := 43
def lbH3 : Nat := 44
def lbOddRI : Nat := 45
def lbEvenRI : Nat := 46
def lbExtPicCn : Nat := 47
def lbAK : Nat := 48
def lbAP : Nat := 49
def lbAS : Nat := 50
def lbAKVI : Nat := 51
def lbHH : Nat := 52
def lbCPHY : Nat := 53
def lbDottedCircle : Nat := 54
def lbZWJBit : Nat := 128
def lbCPeaFWHBit : Nat := 256
def lbSotBit : Nat := 512

/-- The entries of `lbTransitions`: the legacy line break parser's
transition table, keyed by (state, property):
(new state, line break decision, rule number). -/
def lbTransitionTable : List ((Int × Nat) × (Nat × Nat × Nat)) := [
  (((lbAny : Int), prHH), (lbHH, LineDontBreak, 2102)),
  (((lbHH : Int), prAL), (lbAL, LineDontBreak, 201)),
  (((lbHH : Int), prHL), (lbHL, LineDontBreak, 201)),
  (((lbHH : Int), prHH), (lbHH, LineDontBreak, 2102)),
  (((lbHH : Int), prAny), (lbAny, LineCanBreak, 310)),
  (((lbCPHY : Int), prAL), (lbAL, LineCanBreak, 9990)),
  (((lbCPHY : Int), prHL), (lbHL, LineCanBreak, 9990)),
  (((lbCPHY : Int), prAny), (lbAny, LineCanBreak, 310)),
  (((lbAny : Int), prAK), (lbAK, LineCanBreak, 310)),
  (((lbAny : Int), prAP), (lbAP, LineCanBreak, 310)),
  (((lbAny : Int), prAS), (lbAS, LineCanBreak, 310)),
  (((lbAny : Int), prVF), (lbAny, LineCanBreak, 310)),
  (((lbAny : Int), prVI), (lbAny, LineCanBreak, 310)),
  (((lbAK : Int), prVF), (lbAny, LineDontBreak, 2812)),
  (((lbAK : Int), prVI), (lbAKVI, LineDontBreak, 2812)),
  (((lbAS : Int), prVF), (lbAny, LineDontBreak, 2812)),
  (((lbAS : Int), prVI), (lbAKVI, LineDontBreak, 2812)),
  (((lbDottedCircle : Int), prVF), (lbAny, LineDontBreak, 2812)),
  (((lbDottedCircle : Int), prVI), (lbAKVI, LineDontBreak, 2812)),
  (((lbDottedCircle : Int), prAny), (lbAny, LineCanBreak, 310)),
  (((lbDottedCircle : Int), prNU), (lbNU, LineDontBreak, 230)),
  (((lbDottedCircle : Int), prPR), (lbPR, LineDontBreak, 240)),
  (((lbDottedCircle : Int), prPO), (lbPO, LineDontBreak, 240)),
  (((lbDottedCircle : Int), prAL), (lbAL, LineDontBreak, 280)),
  (((lbDottedCircle : Int), prHL), (lbHL, LineDontBreak, 280)),
  (((lbDottedCircle : Int), prHH), (lbHH, LineDontBreak, 2102)),
  (((lbAKVI : Int), prAK), (lbAK, LineDontBreak, 2813)),
  (((lbAKVI : Int), prAny), (lbAny, LineCanBreak, 310)),
  (((lbBK : Int), prAny), (lbAny, LineMustBreak, 40)),
  (((lbCR : Int), prLF), (lbLF, LineDontBreak, 50)),
  (((lbCR : Int), prAny), (lbAny, LineMustBreak, 50)),
  (((lbLF : Int), prAny), (lbAny, LineMustBreak, 50)),
  (((lbNL : Int), prAny), (lbAny, LineMustBreak, 50)),
  (((lbAny : Int), prBK), (lbBK, LineDontBreak, 60)),
  (((lbAny : Int), prCR), (lbCR, LineDontBreak, 60)),
  (((lbAny : Int), prLF), (lbLF, LineDontBreak, 60)),
  (((lbAny : Int), prNL), (lbNL, LineDontBreak, 60)),
  (((lbAny : Int), prSP), (lbSP, LineDontBreak, 70)),
  (((lbAny : Int), prZW), (lbZW, LineDontBreak, 70)),
  (((lbZW : Int), prSP), (lbZW, LineDontBreak, 70)),
  (((lbZW : Int), prAny), (lbAny, LineCanBreak, 80)),
  (((lbAny : Int), prWJ), (lbWJ, LineDontBreak, 110)),
  (((lbWJ : Int), prAny), (lbAny, LineDontBreak, 110)),
  (((lbAny : Int), prGL), (lbGL, LineCanBreak, 310)),
  (((lbGL : Int), prAny), (lbAny, LineDontBreak, 120)),
  (((lbAny : Int), prCL), (lbCL, LineCanBreak, 310)),
  (((lbAny : Int), prCP), (lbCP, LineCanBreak, 310)),
  (((lbCP : Int), prHY), (lbCPHY, LineDontBreak, 210)),
  (((lbCL : Int), prHY), (lbCPHY, LineDontBreak, 210)),
  (((lbNUCP : Int), prHY), (lbCPHY, LineDontBreak, 210)),
  (((lbNUCL : Int), prHY), (lbCPHY, LineDontBreak, 210)),
  (((lbAny : Int), prEX), (lbEX, LineDontBreak, 130)),
  (((lbAny : Int), prIS), (lbIS, LineCanBreak, 310)),
  (((lbAny : Int), prSY), (lbSY, LineCanBreak, 310)),
  (((lbAny : Int), prOP), (lbOP, LineCanBreak, 310)),
  (((lbOP : Int), prSP), (lbOP, LineDontBreak, 70)),
  (((lbOP : Int), prAny), (lbAny, LineDontBreak, 140)),
  (((lbQU : Int), prSP), (lbQUSP, LineDontBreak, 70)),
  (((lbQUPi : Int), prSP), (lbQUPiSP, LineDontBreak, 70)),
  (((lbQU : Int), prOP), (lbOP, LineDontBreak, 150)),
  (((lbQUPi : Int), prOP), (lbOP, LineDontBreak, 150)),
  (((lbCL : Int), prSP), (lbCLCPSP, LineDontBreak, 70)),
  (((lbNUCL : Int), prSP), (lbCLCPSP, LineDontBreak, 70)),
  (((lbCP : Int), prSP), (lbCLCPSP, LineDontBreak, 70)),
  (((lbNUCP : Int), prSP), (lbCLCPSP, LineDontBreak, 70)),
  (((lbCL : Int), prNS), (lbNS, LineDontBreak, 160)),
  (((lbNUCL : Int), prNS), (lbNS, LineDontBreak, 160)),
  (((lbCP : Int), prNS), (lbNS, LineDontBreak, 160)),
  (((lbNUCP : Int), prNS), (lbNS, LineDontBreak, 160)),
  (((lbCLCPSP : Int), prNS), (lbNS, LineDontBreak, 160)),
  (((lbAny : Int), prB2), (lbB2, LineCanBreak, 310)),
  (((lbB2 : Int), prSP), (lbB2SP, LineDontBreak, 70)),
  (((lbB2 : Int), prB2), (lbB2, LineDontBreak, 170)),
  (((lbB2SP : Int), prB2), (lbB2, LineDontBreak, 170)),
  (((lbSP : Int), prAny), (lbAny, LineCanBreak, 180)),
  (((lbQUSP : Int), prAny), (lbAny, LineCanBreak, 180)),
  (((lbCLCPSP : Int), prAny), (lbAny, LineCanBreak, 180)),
  (((lbB2SP : Int), prAny), (lbAny, LineCanBreak, 180)),
  (((lbQUPiSP : Int), prAny), (lbAny, LineCanBreak, 180)),
  (((lbQUPiSP : Int), prOP), (lbOP, LineCanBreak, 180)),
  (((lbAny : Int), prQU), (lbQU, LineDontBreak, 190)),
  (((lbQU : Int), prAny), (lbAny, LineDontBreak, 190)),
  (((lbQUPi : Int), prAny), (lbAny, LineDontBreak, 190)),
  (((lbAny : Int), prCB), (lbCB, LineCanBreak, 200)),
  (((lbCB : Int), prAny), (lbAny, LineCanBreak, 200)),
  (((lbAny : Int), prBA), (lbBA, LineDontBreak, 210)),
  (((lbAny : Int), prHY), (lbHY, LineDontBreak, 210)),
  (((lbAny : Int), prNS), (lbNS, LineDontBreak, 210)),
  (((lbAny : Int), prBB), (lbBB, LineCanBreak, 310)),
  (((lbBB : Int), prAny), (lbAny, LineDontBreak, 210)),
  (((lbAny : Int), prHL), (lbHL, LineCanBreak, 310)),
  (((lbHL : Int), prHY), (lbLB21a, LineDontBreak, 210)),
  (((lbHL : Int), prBA), (lbLB21a, LineDontBreak, 210)),
  (((lbLB21a : Int), prHL), (lbHL, LineCanBreak, 9990)),
  (((lbLB21a : Int), prAL), (lbAL, LineCanBreak, 9990)),
  (((lbLB21a : Int), prAny), (lbAny, LineDontBreak, 211)),
  (((lbSY : Int), prHL), (lbHL, LineDontBreak, 212)),
  (((lbNUSY : Int), prHL), (lbHL, LineDontBreak, 212)),
  (((lbAny : Int), prIN), (lbAny, LineDontBreak, 220)),
  (((lbAny : Int), prAL), (lbAL, LineCanBreak, 310)),
  (((lbAny : Int), prNU), (lbNU, LineCanBreak, 310)),
  (((lbAL : Int), prNU), (lbNU, LineDontBreak, 230)),
  (((lbHL : Int), prNU), (lbNU, LineDontBreak, 230)),
  (((lbNU : Int), prAL), (lbAL, LineDontBreak, 230)),
  (((lbNU : Int), prHL), (lbHL, LineDontBreak, 230)),
  (((lbNUNU : Int), prAL), (lbAL, LineDontBreak, 230)),
  (((lbNUNU : Int), prHL), (lbHL, LineDontBreak, 230)),
  (((lbAny : Int), prPR), (lbPR, LineCanBreak, 310)),
  (((lbAny : Int), prID), (lbIDEM, LineCanBreak, 310)),
  (((lbAny : Int), prEB), (lbEB, LineCanBreak, 310)),
  (((lbAny : Int), prEM), (lbIDEM, LineCanBreak, 310)),
  (((lbPR : Int), prID), (lbIDEM, LineDontBreak, 231)),
  (((lbPR : Int), prEB), (lbEB, LineDontBreak, 231)),
  (((lbPR : Int), prEM), (lbIDEM, LineDontBreak, 231)),
  (((lbIDEM : Int), prPO), (lbPO, LineDontBreak, 231)),
  (((lbEB : Int), prPO), (lbPO, LineDontBreak, 231)),
  (((lbExtPicCn : Int), prPO), (lbPO, LineDontBreak, 2313)),
  (((lbAny : Int), prPO), (lbPO, LineCanBreak, 310)),
  (((lbPR : Int), prAL), (lbAL, LineDontBreak, 240)),
  (((lbPR : Int), prHL), (lbHL, LineDontBreak, 240)),
  (((lbPO : Int), prAL), (lbAL, LineDontBreak, 240)),
  (((lbPO : Int), prHL), (lbHL, LineDontBreak, 240)),
  (((lbAL : Int), prPR), (lbPR, LineDontBreak, 240)),
  (((lbAL : Int), prPO), (lbPO, LineDontBreak, 240)),
  (((lbHL : Int), prPR), (lbPR, LineDontBreak, 240)),
  (((lbHL : Int), prPO), (lbPO, LineDontBreak, 240)),
  (((lbIS : Int), prNU), (lbNU, LineDontBreak, 2514)),
  (((lbPR : Int), prNU), (lbNU, LineDontBreak, 250)),
  (((lbPO : Int), prNU), (lbNU, LineDontBreak, 250)),
  (((lbOP : Int), prNU), (lbNU, LineDontBreak, 250)),
  (((lbHY : Int), prNU), (lbNU, LineDontBreak, 250)),
  (((lbNU : Int), prNU), (lbNUNU, LineDontBreak, 250)),
  (((lbNU : Int), prSY), (lbNUSY, LineDontBreak, 250)),
  (((lbNU : Int), prIS), (lbNUIS, LineDontBreak, 250)),
  (((lbNUNU : Int), prNU), (lbNUNU, LineDontBreak, 250)),
  (((lbNUNU : Int), prSY), (lbNUSY, LineDontBreak, 250)),
  (((lbNUNU : Int), prIS), (lbNUIS, LineDontBreak, 250)),
  (((lbNUSY : Int), prNU), (lbNUNU, LineDontBreak, 250)),
  (((lbNUSY : Int), prSY), (lbNUSY, LineDontBreak, 250)),
  (((lbNUSY : Int), prIS), (lbNUIS, LineDontBreak, 250)),
  (((lbNUIS : Int), prNU), (lbNUNU, LineDontBreak, 250)),
  (((lbNUIS : Int), prSY), (lbNUSY, LineDontBreak, 250)),
  (((lbNUIS : Int), prIS), (lbNUIS, LineDontBreak, 250)),
  (((lbNU : Int), prCL), (lbNUCL, LineDontBreak, 250)),
  (((lbNU : Int), prCP), (lbNUCP, LineDontBreak, 250)),
  (((lbNUNU : Int), prCL), (lbNUCL, LineDontBreak, 250)),
  (((lbNUNU : Int), prCP), (lbNUCP, LineDontBreak, 250)),
  (((lbNUSY : Int), prCL), (lbNUCL, LineDontBreak, 250)),
  (((lbNUSY : Int), prCP), (lbNUCP, LineDontBreak, 250)),
  (((lbNUIS : Int), prCL), (lbNUCL, LineDontBreak, 250)),
  (((lbNUIS : Int), prCP), (lbNUCP, LineDontBreak, 250)),
  (((lbNU : Int), prPO), (lbPO, LineDontBreak, 250)),
  (((lbNUNU : Int), prPO), (lbPO, LineDontBreak, 250)),
  (((lbNUSY : Int), prPO), (lbPO, LineDontBreak, 250)),
  (((lbNUIS : Int), prPO), (lbPO, LineDontBreak, 250)),
  (((lbNUCL : Int), prPO), (lbPO, LineDontBreak, 250)),
  (((lbNUCP : Int), prPO), (lbPO, LineDontBreak, 250)),
  (((lbNU : Int), prPR), (lbPR, LineDontBreak, 250)),
  (((lbNUNU : Int), prPR), (lbPR, LineDontBreak, 250)),
  (((lbNUSY : Int), prPR), (lbPR, LineDontBreak, 250)),
  (((lbNUIS : Int), prPR), (lbPR, LineDontBreak, 250)),
  (((lbNUCL : Int), prPR), (lbPR, LineDontBreak, 250)),
  (((lbNUCP : Int), prPR), (lbPR, LineDontBreak, 250)),
  (((lbAny : Int), prJL), (lbJL, LineCanBreak, 310)),
  (((lbAny : Int), prJV), (lbJV, LineCanBreak, 310)),
  (((lbAny : Int), prJT), (lbJT, LineCanBreak, 310)),
  (((lbAny : Int), prH2), (lbH2, LineCanBreak, 310)),
  (((lbAny : Int), prH3), (lbH3, LineCanBreak, 310)),
  (((lbJL : Int), prJL), (lbJL, LineDontBreak, 260)),
  (((lbJL : Int), prJV), (lbJV, LineDontBreak, 260)),
  (((lbJL : Int), prH2), (lbH2, LineDontBreak, 260)),
  (((lbJL : Int), prH3), (lbH3, LineDontBreak, 260)),
  (((lbJV : Int), prJV), (lbJV, LineDontBreak, 260)),
  (((lbJV : Int), prJT), (lbJT, LineDontBreak, 260)),
  (((lbH2 : Int), prJV), (lbJV, LineDontBreak, 260)),
  (((lbH2 : Int), prJT), (lbJT, LineDontBreak, 260)),
  (((lbJT : Int), prJT), (lbJT, LineDontBreak, 260)),
  (((lbH3 : Int), prJT), (lbJT, LineDontBreak, 260)),
  (((lbJL : Int), prPO), (lbPO, LineDontBreak, 270)),
  (((lbJV : Int), prPO), (lbPO, LineDontBreak, 270)),
  (((lbJT : Int), prPO), (lbPO, LineDontBreak, 270)),
  (((lbH2 : Int), prPO), (lbPO, LineDontBreak, 270)),
  (((lbH3 : Int), prPO), (lbPO, LineDontBreak, 270)),
  (((lbPR : Int), prJL), (lbJL, LineDontBreak, 270)),
  (((lbPR : Int), prJV), (lbJV, LineDontBreak, 270)),
  (((lbPR : Int), prJT), (lbJT, LineDontBreak, 270)),
  (((lbPR : Int), prH2), (lbH2, LineDontBreak, 270)),
  (((lbPR : Int), prH3), (lbH3, LineDontBreak, 270)),
  (((lbAL : Int), prAL), (lbAL, LineDontBreak, 280)),
  (((lbAL : Int), prHL), (lbHL, LineDontBreak, 280)),
  (((lbHL : Int), prAL), (lbAL, LineDontBreak, 280)),
  (((lbHL : Int), prHL), (lbHL, LineDontBreak, 280)),
  (((lbIS : Int), prAL), (lbAL, LineDontBreak, 290)),
  (((lbIS : Int), prHL), (lbHL, LineDontBreak, 290)),
  (((lbNUIS : Int), prAL), (lbAL, LineDontBreak, 290)),
  (((lbNUIS : Int), prHL), (lbHL, LineDontBreak, 290))]

/-- `lbTransitions` (`none` stands for the Go function's negative "no
transition" result). -/
def lbTransitions (state : Int) (prop : Nat) : Option (Nat × Nat × Nat) :=
  tableLookup lbTransitionTable (state, prop)


set_option maxRecDepth 8000 in
/-- `transitionLineBreakState`: the legacy line break parser.  The Go
function's deferred block (the LB30 East-Asian-width bit on CP states
and the LB8a forced no-break) is applied to the body's result at the
end; the byte-slice and string lookahead arguments are merged into
`rem`. -/
def transitionLineBreakState (M : Model) (state0 : Int) (r : Nat)
    (rem : List Nat) : Int × Nat :=
  let pg := propertyLineBreak M r
  let generalCategory := pg.2
  -- prepare: extract and strip the CP-East-Asian-width, ZWJ and
  -- start-of-text bits
  let isCPeaFWH := 0 ≤ state0 ∧ state0.toNat &&& lbCPeaFWHBit ≠ 0
  let forceNoBreak := 0 ≤ state0 ∧ state0.toNat &&& lbZWJBit ≠ 0
  let isSot := state0 < 0 ∨ (0 ≤ state0 ∧ state0.toNat &&& lbSotBit ≠ 0)
  let s : Int :=
    if state0 < 0 then state0
    else (goClear (goClear (goClear state0.toNat lbCPeaFWHBit) lbZWJBit) lbSotBit : Nat)
  -- LB1: resolve ambiguous properties
  let np :=
    if pg.1 = prAI ∨ pg.1 = prSG ∨ pg.1 = prXX then prAL
    else if pg.1 = prSA then
      (if generalCategory = gcMn ∨ generalCategory = gcMc then prCM else prAL)
    else if pg.1 = prCJ then prNS
    else pg.1
  let body : Nat × Nat :=
    -- combining marks (LB9 / LB10)
    if np = prZWJ ∨ np = prCM then
      let bit := (if np = prZWJ then lbZWJBit else 0) ||| (if isSot then lbSotBit else 0)
      let mustBreakState := s < 0 ∨ s = (lbBK : Nat) ∨ s = (lbCR : Nat) ∨
        s = (lbLF : Nat) ∨ s = (lbNL : Nat)
      if ¬mustBreakState ∧ s ≠ (lbSP : Nat) ∧ s ≠ (lbZW : Nat) ∧ s ≠ (lbQUSP : Nat) ∧
          s ≠ (lbCLCPSP : Nat) ∧ s ≠ (lbB2SP : Nat) then
        (s.toNat ||| bit, LineDontBreak)
      else if mustBreakState then (lbAL ||| bit, LineMustBreak)
      else (lbAL ||| bit, LineCanBreak)
    else
      -- find the applicable transition in the table (tiered lookup)
      let tier :=
        match lbTransitions s np with
        | some t => t
        | none =>
          match lbTransitions s prAny, lbTransitions lbAny np with
          | some (_, apl, apr), some (ass, asl, asr) =>
            if apr < asr then (ass, apl, apr) else (ass, asl, asr)
          | some t, none => t
          | none, some t => t
          | none, none => (lbAny, LineCanBreak, 310)
      let ns0 := tier.1
      let lb0 := tier.2.1
      let rule := tier.2.2
      -- LB12a
      if rule > 121 ∧ np = prGL ∧ s ≠ (lbSP : Nat) ∧ s ≠ (lbBA : Nat) ∧ s ≠ (lbHY : Nat) ∧
          s ≠ (lbLB21a : Nat) ∧ s ≠ (lbQUSP : Nat) ∧ s ≠ (lbCLCPSP : Nat) ∧
          s ≠ (lbB2SP : Nat) ∧ s ≠ (lbHH : Nat) then
        (lbGL, LineDontBreak)
      -- LB15.1: sot (QU_Pi SP*)+ x (and other characters)
      else if isSot ∧ s = (lbQUPiSP : Nat) ∧ rule ≥ 180 then (ns0, LineDontBreak)
      -- LB20a.1: word-initial hyphen, only at the start of text
      else if isSot ∧ (s = (lbHY : Nat) ∨ s = (lbHH : Nat)) ∧ np = prAL then
        (lbAL, LineDontBreak)
      else if isSot ∧ (s = (lbHY : Nat) ∨ s = (lbHH : Nat)) ∧ np = prHL then
        (lbHL, LineDontBreak)
      -- LB15.2: x QU_Pf eot
      else if rule ≥ 180 ∧ np = prQU ∧ generalCategory = gcPf ∧
          (s = (lbSP : Nat) ∨ s = (lbQUSP : Nat) ∨ s = (lbCLCPSP : Nat) ∨
            s = (lbB2SP : Nat) ∨ s = (lbQUPiSP : Nat)) ∧ rem = [] then
        (lbQU, LineDontBreak)
      -- LB13
      else if rule > 130 ∧ s ≠ (lbNU : Nat) ∧ s ≠ (lbNUNU : Nat) ∧ np = prCL then
        (lbCL, LineDontBreak)
      else if rule > 130 ∧ s ≠ (lbNU : Nat) ∧ s ≠ (lbNUNU : Nat) ∧ np = prCP then
        (lbCP, LineDontBreak)
      else if rule > 130 ∧ s ≠ (lbNU : Nat) ∧ s ≠ (lbNUNU : Nat) ∧ np = prIS then
        (lbIS, LineDontBreak)
      else if rule > 130 ∧ s ≠ (lbNU : Nat) ∧ s ≠ (lbNUNU : Nat) ∧ np = prSY then
        (lbSY, LineDontBreak)
      -- LB28.11: AP x (AK | DottedCircle | AS)
      else if s = (lbAP : Nat) ∧ np = prAK then (lbAK, LineDontBreak)
      else if s = (lbAP : Nat) ∧ np = prAS then (lbAS, LineDontBreak)
      else if s = (lbAP : Nat) ∧ np = prAL ∧ r = 0x25CC then (lbDottedCircle, LineDontBreak)
      else
        -- track the dotted circle, QU_Pi, and the sot bit on the new state
        let ns1 := if np = prAL ∧ r = 0x25CC ∧ ns0 = lbAL then lbDottedCircle else ns0
        let ns2 :=
          if np = prQU ∧ generalCategory = gcPi ∧ ns1 = lbQU then
            (if isSot then lbQUPi ||| lbSotBit else lbQUPi)
          else ns1
        let ns3 := if isSot ∧ (ns2 = lbHY ∨ ns2 = lbHH) then ns2 ||| lbSotBit else ns2
        let ns4 := if isSot ∧ s = (lbQUPi : Nat) ∧ ns3 = lbQUPiSP then ns3 ||| lbSotBit else ns3
        -- LB25 (look ahead)
        if ((rule > 250 ∧ (s = (lbPR : Nat) ∨ s = (lbPO : Nat)) ∧ np = prOP) ∨ np = prHY) ∧
            (utf8DecodeRune rem).1 ≠ RuneError ∧
            (propertyLineBreak M (utf8DecodeRune rem).1).1 = prNU then
          (lbNU, LineDontBreak)
        -- LB30 (part one)
        else if rule > 300 ∧
            (s = (lbAL : Nat) ∨ s = (lbHL : Nat) ∨ s = (lbNU : Nat) ∨
              s = (lbNUNU : Nat) ∨ s = (lbDottedCircle : Nat)) ∧ np = prOP ∧
            ¬(propertyEastAsianWidth M r = prF ∨ propertyEastAsianWidth M r = prW ∨
              propertyEastAsianWidth M r = prH) then
          (lbOP, LineDontBreak)
        else if rule > 300 ∧
            ¬((s = (lbAL : Nat) ∨ s = (lbHL : Nat) ∨ s = (lbNU : Nat) ∨
              s = (lbNUNU : Nat) ∨ s = (lbDottedCircle : Nat)) ∧ np = prOP) ∧
            isCPeaFWH ∧ np = prAL then (lbAL, LineDontBreak)
        else if rule > 300 ∧
            ¬((s = (lbAL : Nat) ∨ s = (lbHL : Nat) ∨ s = (lbNU : Nat) ∨
              s = (lbNUNU : Nat) ∨ s = (lbDottedCircle : Nat)) ∧ np = prOP) ∧
            isCPeaFWH ∧ np = prHL then (lbHL, LineDontBreak)
        else if rule > 300 ∧
            ¬((s = (lbAL : Nat) ∨ s = (lbHL : Nat) ∨ s = (lbNU : Nat) ∨
              s = (lbNUNU : Nat) ∨ s = (lbDottedCircle : Nat)) ∧ np = prOP) ∧
            isCPeaFWH ∧ np = prNU then (lbNU, LineDontBreak)
        -- LB30a
        else if ns4 = lbAny ∧ np = prRI ∧ s ≠ (lbOddRI : Nat) ∧ s ≠ (lbEvenRI : Nat) then
          (lbOddRI, lb0)
        else if ns4 = lbAny ∧ np = prRI ∧ s = (lbOddRI : Nat) then (lbEvenRI, LineDontBreak)
        else if ns4 = lbAny ∧ np = prRI then (lbOddRI, lb0)
        -- LB30b
        else if rule > 302 ∧ np = prEM ∧ (s = (lbEB : Nat) ∨ s = (lbExtPicCn : Nat)) then
          (prAny, LineDontBreak)
        else if rule > 302 ∧ propertyGraphemes M r = prExtendedPictographic ∧
            generalCategory = gcCn then
          (lbExtPicCn, LineCanBreak)
        else (ns4, lb0)
  -- the deferred block
  let ns :=
    if body.1 = lbCP ∨ body.1 = lbNUCP then
      (if ¬(propertyEastAsianWidth M r = prF ∨ propertyEastAsianWidth M r = prW ∨
          propertyEastAsianWidth M r = prH) then body.1 ||| lbCPeaFWHBit else body.1)
    else body.1
  ((ns : Int), if forceNoBreak then LineDontBreak else body.2)

/-! ## Spec-modelled collaborators

The word-break and sentence-break transition functions, `runeWidth`,
and the generated property tables are consumed by the core but their
sources are not among the core files; they are modelled here from the
specification and plugged into a concrete `Model`. -/

def wbAnyState : Nat := 0
def wbCRState : Nat := 1
def wbNewlineState : Nat := 2
def wbWSegSpaceState : Nat := 3
def wbALetterState : Nat := 4
def wbNumericState : Nat := 5
def wbExtendNumLetState : Nat := 6
def wbMidLetterState : Nat := 7
def wbMidNumState : Nat := 8

/-- Modelled from the spec: the word-break class of a code point
(the word-break property table is generated data outside the core
sources).  ASCII code points are classified per UAX 29; everything
else defaults to Other. -/
def specWordClass (r : Nat) : Nat :=
  if 0x61 ≤ r ∧ r ≤ 0x7a then prALetter
  else if 0x41 ≤ r ∧ r ≤ 0x5a then prALetter
  else if 0x30 ≤ r ∧ r ≤ 0x39 then prNumeric
  else if r = 0x0d then prCR
  else if r = 0x0a then prLF
  else if r = 0x0b ∨ r = 0x0c ∨ r = 0x85 then prNewline
  else if r = 0x20 then prWSegSpace
  else if r = 0x27 then prSingleQuote
  else if r = 0x22 then prDoubleQuote
  else if r = 0x2e then prMidNumLet
  else if r = 0x3a then prMidLetter
  else if r = 0x2c ∨ r = 0x3b then prMidNum
  else if r = 0x5f then prExtendNumLet
  else if 0x300 ≤ r ∧ r ≤ 0x36f then prExtend
  else if r = 0x200d then prZWJ
  else prAny

/-- Modelled from the spec: `transitionWordBreakState` (its source file
is outside the core).  Implements the UAX 29 word rules of the spec:
WB3/3a/3b (newlines), WB3d (watered spaces), WB4 (transparent
Extend/Format/ZWJ), WB5/8/9/10 (letter and number runs), WB6/7 and
WB11/12 (mid-letter and mid-number bridging with one-rune lookahead on
the remainder), WB13a/b (ExtendNumLet), and the default boundary. -/
def specWordTransition (state : Int) (r : Nat) (remainder : List Nat) : Nat × Bool :=
  let cls := specWordClass r
  let classState :=
    if cls = prALetter then wbALetterState
    else if cls = prNumeric then wbNumericState
    else if cls = prCR then wbCRState
    else if cls = prLF ∨ cls = prNewline then wbNewlineState
    else if cls = prWSegSpace then wbWSegSpaceState
    else if cls = prExtendNumLet then wbExtendNumLetState
    else wbAnyState
  -- WB3: CR x LF
  if state = (wbCRState : Nat) ∧ cls = prLF then (wbNewlineState, false)
  -- WB3a: break after Newline | CR | LF
  else if state = (wbCRState : Nat) ∨ state = (wbNewlineState : Nat) then (classState, true)
  -- WB3b: break before Newline | CR | LF handled by the default below
  -- WB4: Extend | Format | ZWJ are transparent after a base
  else if (cls = prExtend ∨ cls = prFormat ∨ cls = prZWJ) ∧ 0 ≤ state then
    (state.toNat, false)
  -- WB3d: WSegSpace x WSegSpace
  else if state = (wbWSegSpaceState : Nat) ∧ cls = prWSegSpace then (wbWSegSpaceState, false)
  -- WB5 / WB9: letter followed by letter or number
  else if state = (wbALetterState : Nat) ∧ (cls = prALetter ∨ cls = prNumeric) then
    (classState, false)
  -- WB8 / WB10: number followed by number or letter
  else if state = (wbNumericState : Nat) ∧ (cls = prNumeric ∨ cls = prALetter) then
    (classState, false)
  -- WB6/7: letter (MidLetter | MidNumLet | Single_Quote) letter, one-rune lookahead
  else if state = (wbALetterState : Nat) ∧
      (cls = prMidLetter ∨ cls = prMidNumLet ∨ cls = prSingleQuote) ∧
      specWordClass (utf8DecodeRune remainder).1 = prALetter then
    (wbMidLetterState, false)
  else if state = (wbMidLetterState : Nat) ∧ cls = prALetter then (wbALetterState, false)
  -- WB11/12: number (MidNum | MidNumLet | Single_Quote) number, one-rune lookahead
  else if state = (wbNumericState : Nat) ∧
      (cls = prMidNum ∨ cls = prMidNumLet ∨ cls = prSingleQuote) ∧
      specWordClass (utf8DecodeRune remainder).1 = prNumeric then
    (wbMidNumState, false)
  else if state = (wbMidNumState : Nat) ∧ cls = prNumeric then (wbNumericState, false)
  -- WB13a/b: ExtendNumLet bridging
  else if (state = (wbALetterState : Nat) ∨ state = (wbNumericState : Nat) ∨
      state = (wbExtendNumLetState : Nat)) ∧ cls = prExtendNumLet then
    (wbExtendNumLetState, false)
  else if state = (wbExtendNumLetState : Nat) ∧ (cls = prALetter ∨ cls = prNumeric) then
    (classState, false)
  -- WB999: any / any
  else (classState, true)

def sbAnyState : Nat := 0
def sbCRState : Nat := 1
def sbSepState : Nat := 2
def sbATermState : Nat := 3
def sbATermCloseState : Nat := 4
def sbATermSpState : Nat := 5
def sbSTermState : Nat := 6
def sbSTermCloseState : Nat := 7
def sbSTermSpState : Nat := 8

/-- Modelled from the spec: the sentence-break class of a code point
(the sentence-break property table is generated data outside the core
sources). -/
def specSentenceClass (r : Nat) : Nat :=
  if 0x61 ≤ r ∧ r ≤ 0x7a then prLower
  else if 0x41 ≤ r ∧ r ≤ 0x5a then prUpper
  else if 0x30 ≤ r ∧ r ≤ 0x39 then prNumeric
  else if r = 0x0d then prCR
  else if r = 0x0a then prLF
  else if r = 0x85 ∨ r = 0x2028 ∨ r = 0x2029 then prSep
  else if r = 0x20 ∨ r = 0x09 then prSp
  else if r = 0x2e then prATerm
  else if r = 0x21 ∨ r = 0x3f then prSTerm
  else if r = 0x22 ∨ r = 0x27 ∨ r = 0x28 ∨ r = 0x29 ∨ r = 0x5b ∨ r = 0x5d then prClose
  else if r = 0x2c ∨ r = 0x3a ∨ r = 0x3b ∨ r = 0x2d then prSContinue
  else prAny

/-- Modelled from the spec: the SB8 lookahead scan.  After an ATerm
(and optional Close and space runs), scan the remainder past any
non-letter, non-terminator code points; `true` iff a lowercase letter
follows, in which case the boundary is suppressed. -/
def sb8Scan : Nat → List Nat → Bool
  | 0, _ => false
  | _ + 1, [] => false
  | fuel + 1, bs =>
    let rl := utf8DecodeRune bs
    let cls := specSentenceClass rl.1
    if cls = prLower then true
    else if cls = prUpper ∨ cls = prOLetter ∨ cls = prATerm ∨ cls = prSTerm ∨
        cls = prSep ∨ cls = prCR ∨ cls = prLF then false
    else sb8Scan fuel (bs.drop rl.2)

/-- Modelled from the spec: `transitionSentenceBreakState` (its source
file is outside the core).  Implements SB3 (CR x LF), SB4 (break after
separators), SB6/8/8a/9/10/11 around ATerm/STerm with Close and space
runs and the SB8 lowercase lookahead on the remainder, and the SB998
default of no boundary. -/
def specSentenceTransition (state : Int) (r : Nat) (remainder : List Nat) : Nat × Bool :=
  let cls := specSentenceClass r
  let classState :=
    if cls = prCR then sbCRState
    else if cls = prLF ∨ cls = prSep then sbSepState
    else if cls = prATerm then sbATermState
    else if cls = prSTerm then sbSTermState
    else sbAnyState
  -- SB3: CR x LF
  if state = (sbCRState : Nat) ∧ cls = prLF then (sbSepState, false)
  -- SB4: (Sep | CR | LF) /
  else if state = (sbCRState : Nat) ∨ state = (sbSepState : Nat) then (classState, true)
  -- runs after ATerm: SB6 numeric, SB8a terminators, SB9/10 close and space
  else if state = (sbATermState : Nat) ∨ state = (sbATermCloseState : Nat) ∨
      state = (sbATermSpState : Nat) then
    if cls = prNumeric ∧ state = (sbATermState : Nat) then (sbAnyState, false)
    else if cls = prLower then (sbAnyState, false)
    else if cls = prSContinue then (sbAnyState, false)
    else if cls = prATerm then (sbATermState, false)
    else if cls = prSTerm then (sbSTermState, false)
    else if cls = prClose ∧ state ≠ (sbATermSpState : Nat) then (sbATermCloseState, false)
    else if cls = prSp then (sbATermSpState, false)
    else if cls = prCR ∨ cls = prLF ∨ cls = prSep then (classState, false)
    else if sb8Scan (remainder.length + 1) (utf8EncodeRune r ++ remainder) then
      (classState, false)
    else (classState, true)
  -- runs after STerm: SB8a/9/10/11
  else if state = (sbSTermState : Nat) ∨ state = (sbSTermCloseState : Nat) ∨
      state = (sbSTermSpState : Nat) then
    if cls = prSContinue then (sbAnyState, false)
    else if cls = prATerm then (sbATermState, false)
    else if cls = prSTerm then (sbSTermState, false)
    else if cls = prClose ∧ state ≠ (sbSTermSpState : Nat) then (sbSTermCloseState, false)
    else if cls = prSp then (sbSTermSpState, false)
    else if cls = prCR ∨ cls = prLF ∨ cls = prSep then (classState, false)
    else (classState, true)
  -- SB998: no boundary
  else (classState, false)

/-- Modelled from the spec: `runeWidth(r, graphemeProperty)` (its
source file is outside the core).  Control codes and combining marks
are zero width, regional indicators and the leading Hangul jamo render
wide, emoji render wide, and otherwise the East Asian width decides
(F and W wide, everything else narrow). -/
def specRuneWidth (r prop : Nat) : Nat :=
  if prop = prControl ∨ prop = prCR ∨ prop = prLF then 0
  else if prop = prExtend ∨ prop = prZWJ ∨ prop = prSpacingMark ∨ prop = prPrepend then 0
  else if prop = prRegionalIndicator then 2
  else if prop = prL then 2
  else if prop = prExtendedPictographic then 2
  else if (0x1100 ≤ r ∧ r ≤ 0x115f) ∨ (0x2e80 ≤ r ∧ r ≤ 0x303e) ∨
      (0x3041 ≤ r ∧ r ≤ 0x33ff) ∨ (0x3400 ≤ r ∧ r ≤ 0x4dbf) ∨
      (0x4e00 ≤ r ∧ r ≤ 0x9fff) ∨ (0xa000 ≤ r ∧ r ≤ 0xa4cf) ∨
      (0xac00 ≤ r ∧ r ≤ 0xd7a3) ∨ (0xf900 ≤ r ∧ r ≤ 0xfaff) ∨
      (0xfe30 ≤ r ∧ r ≤ 0xfe4f) ∨ (0xff00 ≤ r ∧ r ≤ 0xff60) ∨
      (0x20000 ≤ r ∧ r ≤ 0x2fffd) ∨ (0x30000 ≤ r ∧ r ≤ 0x3fffd) then 2
  else 1

/-- Modelled from the spec: a concrete line-break property table for
the code points the fast paths do not cover, following the documented
UAX 14 classes (space SP; hyphen-minus HY; solidus SY; full stop,
comma, colon and semicolon IS; exclamation and question EX;
parentheses OP/CP; braces OP/CL; brackets OP/CP; quotes QU; percent
PO; dollar and plus PR; tab BA; CR/LF; NBSP GL; ZWSP ZW; ZWJ;
combining marks CM; IDEOGRAPHIC ideographs).  Everything else is a
table miss (zero entry). -/
def specLineBreakTable (r : Nat) : Nat × Nat :=
  if r = 0x09 then (prBA, gcCc)
  else if r = 0x0a then (prLF, gcCc)
  else if r = 0x0b ∨ r = 0x0c then (prBK, gcCc)
  else if r = 0x0d then (prCR, gcCc)
  else if r = 0x20 then (prSP, gcZs)
  else if r = 0x21 then (prEX, gcPo)
  else if r = 0x22 then (prQU, gcPo)
  else if r = 0x24 then (prPR, gcSc)
  else if r = 0x25 then (prPO, gcPo)
  else if r = 0x27 then (prQU, gcPo)
  else if r = 0x28 then (prOP, gcPs)
  else if r = 0x29 then (prCP, gcPe)
  else if r = 0x2b then (prPR, gcSm)
  else if r = 0x2c then (prIS, gcPo)
  else if r = 0x2d then (prHY, gcPd)
  else if r = 0x2e then (prIS, gcPo)
  else if r = 0x2f then (prSY, gcPo)
  else if r = 0x3a ∨ r = 0x3b then (prIS, gcPo)
  else if r = 0x3f then (prEX, gcPo)
  else if r = 0x5b then (prOP, gcPs)
  else if r = 0x5d then (prCP, gcPe)
  else if r = 0x7b then (prOP, gcPs)
  else if r = 0x7d then (prCL, gcPe)
  else if r = 0xa0 then (prGL, gcZs)
  else if r = 0xab then (prQU, gcPi)
  else if r = 0xbb then (prQU, gcPf)
  else if r = 0x200b then (prZW, gcCf)
  else if r = 0x200d then (prZWJ, gcCf)
  else if 0x300 ≤ r ∧ r ≤ 0x36f then (prCM, gcMn)
  else if 0x4e00 ≤ r ∧ r ≤ 0x9fff then (prID, gcLo)
  else (0, 0)

/-- Modelled from the spec: a concrete grapheme property table beyond
the ASCII fast paths (combining marks Extend, ZWJ, Devanagari vowel
signs SpacingMark or Extend, CJK ideographs default).  Everything else
is a table miss (zero entry). -/
def specGraphemeTable (r : Nat) : Nat :=
  if 0x300 ≤ r ∧ r ≤ 0x36f then prExtend
  else if r = 0x200d then prZWJ
  else if r = 0x94d then prExtend
  else if 0x93e ≤ r ∧ r ≤ 0x94c then prSpacingMark
  else 0

/-- Modelled from the spec: a concrete East Asian width table beyond
the ASCII fast paths. -/
def specEawTable (r : Nat) : Nat :=
  if r = 0x3000 then prF
  else if 0x4e00 ≤ r ∧ r ≤ 0x9fff then prW
  else if 0xff61 ≤ r ∧ r ≤ 0xffdc then prH
  else 0

/-- Modelled from the spec: a concrete Indic_Conjunct_Break table
(Devanagari consonants are Consonant, the virama is Linker, combining
marks are Extend).  Everything else is a table miss (zero entry). -/
def specIncbTable (r : Nat) : Nat :=
  if 0x915 ≤ r ∧ r ≤ 0x939 then prInCBConsonant
  else if r = 0x94d then prInCBLinker
  else if 0x300 ≤ r ∧ r ≤ 0x36f then prInCBExtend
  else 0

/-- The concrete model: the embedded core wired to the spec-modelled
tables and collaborators. -/
def specModel : Model where
  graphemeTable := specGraphemeTable
  lineBreakTable := specLineBreakTable
  eawTable := specEawTable
  incbTable := specIncbTable
  wordTransition := specWordTransition
  sentenceTransition := specSentenceTransition
  runeWidthFn := specRuneWidth
  wbAny := wbAnyState
  sbAny := sbAnyState

/-! ## Step fusion (from the `step.go` part) -/

def MaskLine : Nat := 3
def MaskWord : Nat := 4
def MaskSentence : Nat := 8
def ShiftWidth : Nat := 4
def shiftWord : Nat := 2
def shiftSentence : Nat := 3
def shiftWordState : Nat := 12
def shiftSentenceState : Nat := 17
def shiftLineState : Nat := 21
def shiftPropState : Nat := 37
def maskGraphemeState : Nat := 0xfff
def maskWordState : Nat := 0x1f
def maskSentenceState : Nat := 0xf
def maskLineState : Nat := 0xffff

/-- The parser states for one `Step` call: determined by the four
transition functions when the state is unknown (negative), unpacked
from the packed token otherwise.  Result: (grapheme, word, sentence,
line, cached property). -/
def stepInitStates (M : Model) (state : Int) (r : Nat) (remainder : List Nat) :
    Nat × Nat × Nat × Nat × Nat :=
  if state < 0 then
    let g := transitionGraphemeState M state r
    let w := M.wordTransition state r remainder
    let sres := M.sentenceTransition state r remainder
    let lres := transitionLineBreakStateContext M state r remainder
    (g.1, w.1, sres.1, lres.1, g.2.1)
  else
    (state.toNat &&& maskGraphemeState,
      (state.toNat >>> shiftWordState) &&& maskWordState,
      (state.toNat >>> shiftSentenceState) &&& maskSentenceState,
      (state.toNat >>> shiftLineState) &&& maskLineState,
      state.toNat >>> shiftPropState)

/-- The loop shared verbatim by `Step` and `StepString`: transition all
four parsers until a grapheme cluster boundary, accumulating the
width.  The fuel argument only bounds the recursion; the callers pass
`b.length`, enough for the at most `b.length - length` iterations. -/
def stepLoop (M : Model) (b : List Nat) :
    Nat → Nat → Nat → Nat → Nat → Nat → Nat → Nat → List Nat × List Nat × Nat × Int
  | 0, length, _, _, _, _, _, _ => (b.take length, b.drop length, 0, 0)
  | fuel + 1, length, gs, ws, ss, ls, firstProp, width =>
    let rl := utf8DecodeRune (b.drop length)
    let r := rl.1
    let l := rl.2
    let remainder := b.drop (length + l)
    let g := transitionGraphemeState M (gs : Int) r
    let w := M.wordTransition (ws : Int) r remainder
    let sres := M.sentenceTransition (ss : Int) r remainder
    let lres := transitionLineBreakStateContext M (ls : Int) r remainder
    if g.2.2 then
      (b.take length, b.drop length,
        lres.2 ||| (width <<< ShiftWidth) ||| (if w.2 then 1 <<< shiftWord else 0) |||
          (if sres.2 then 1 <<< shiftSentence else 0),
        ((g.1 ||| (w.1 <<< shiftWordState) ||| (sres.1 <<< shiftSentenceState) |||
          (lres.1 <<< shiftLineState) ||| (g.2.1 <<< shiftPropState) : Nat) : Int))
    else
      let width' :=
        if firstProp = prExtendedPictographic then
          (if r = vs15 then 1 else if r = vs16 then 2 else width)
        else if firstProp ≠ prRegionalIndicator ∧ firstProp ≠ prL then
          width + M.runeWidthFn r g.2.1
        else width
      if b.length ≤ length + l then
        (b, [],
          LineMustBreak ||| (1 <<< shiftWord) ||| (1 <<< shiftSentence) |||
            (width' <<< ShiftWidth),
          ((grAny ||| (M.wbAny <<< shiftWordState) ||| (M.sbAny <<< shiftSentenceState) |||
            (lbAny <<< shiftLineState) ||| (g.2.1 <<< shiftPropState) : Nat) : Int))
      else stepLoop M b fuel (length + l) g.1 w.1 sres.1 lres.1 firstProp width'

/-- `Step`: the first grapheme cluster of the byte slice, the rest,
the packed boundary information, and the new state token.  Empty input
returns the zero values. -/
def Step (M : Model) (b : List Nat) (state : Int) : List Nat × List Nat × Nat × Int :=
  if b = [] then ([], [], 0, 0)
  else
    let rl := utf8DecodeRune b
    let r := rl.1
    let length := rl.2
    if b.length ≤ length then
      -- already past the end: nothing else to parse
      let prop := if state < 0 then propertyGraphemes M r else state.toNat >>> shiftPropState
      (b, [],
        LineMustBreak ||| (1 <<< shiftWord) ||| (1 <<< shiftSentence) |||
          (M.runeWidthFn r prop <<< ShiftWidth),
        ((grAny ||| (M.wbAny <<< shiftWordState) ||| (M.sbAny <<< shiftSentenceState) |||
          (lbAny <<< shiftLineState) ||| (prop <<< shiftPropState) : Nat) : Int))
    else
      let remainder := b.drop length
      let st := stepInitStates M state r remainder
      stepLoop M b b.length length st.1 st.2.1 st.2.2.1 st.2.2.2.1 st.2.2.2.2
        (M.runeWidthFn r st.2.2.2.2)

/-- `StepString`: like `Step` with string-typed input and outputs.  Its
only textual difference from `Step` is the single-code-point branch:
the cached property is always recomputed from the rune, and the
returned state omits the cached-property field.  The loop is shared
with `Step` (the two Go loops are token-identical up to the byte/string
types). -/
def StepString (M : Model) (b : List Nat) (state : Int) : List Nat × List Nat × Nat × Int :=
  if b = [] then ([], [], 0, 0)
  else
    let rl := utf8DecodeRune b
    let r := rl.1
    let length := rl.2
    if b.length ≤ length then
      let prop := propertyGraphemes M r
      (b, [],
        LineMustBreak ||| (1 <<< shiftWord) ||| (1 <<< shiftSentence) |||
          (M.runeWidthFn r prop <<< ShiftWidth),
        ((grAny ||| (M.wbAny <<< shiftWordState) ||| (M.sbAny <<< shiftSentenceState) |||
          (lbAny <<< shiftLineState) : Nat) : Int))
    else
      let remainder := b.drop length
      let st := stepInitStates M state r remainder
      stepLoop M b b.length length st.1 st.2.1 st.2.2.1 st.2.2.2.1 st.2.2.2.2
        (M.runeWidthFn r st.2.2.2.2)

/-- The loop of `FirstLineSegmentContext`. -/
def firstLineSegmentLoop (M : Model) (b : List Nat) :
    Nat → Nat → LineContext → List Nat × List Nat × Nat × Int
  | 0, length, ctx => (b.take length, b.drop length, LineDontBreak, (packLineContext ctx : Int))
  | fuel + 1, length, ctx =>
    let rl := utf8DecodeRune (b.drop length)
    let remainder := b.drop (length + rl.2)
    let res := transitionLineBreakContext M ctx rl.1 remainder
    if res.2 ≠ LineDontBreak then
      (b.take length, b.drop length, res.2, (packLineContext ctx : Int))
    else if b.length ≤ length + rl.2 then
      (b, [], LineMustBreak, (packLineContext res.1 : Int))
    else firstLineSegmentLoop M b fuel (length + rl.2) res.1

/-- `FirstLineSegmentContext`: the first line segment using the
context system.  Empty input returns empty slices, no break, and the
initial -1 token. -/
def FirstLineSegmentContext (M : Model) (b : List Nat) (state : Int) :
    List Nat × List Nat × Nat × Int :=
  if b = [] then ([], [], LineDontBreak, -1)
  else
    let rl := utf8DecodeRune b
    if b.length ≤ rl.2 then
      (b, [], LineMustBreak, (packLineContext ⟨lbcAny, 0⟩ : Int))
    else
      let res := transitionLineBreakContext M (unpackLineContext state) rl.1 (b.drop rl.2)
      firstLineSegmentLoop M b b.length rl.2 res.1

/-! ## Iteration drivers -/

/-- The outputs (cluster, boundaries) of repeated `Step` calls, with
explicit fuel. -/
def stepRunF (M : Model) : Nat → List Nat → Int → List (List Nat × Nat)
  | 0, _, _ => []
  | fuel + 1, b, st =>
    if b = [] then []
    else
      let out := Step M b st
      (out.1, out.2.2.1) :: stepRunF M fuel out.2.1 out.2.2.2

/-- Repeated `Step` from input `b` and state `st` until the rest is
empty: the list of (cluster, boundaries) pairs. -/
def stepRun (M : Model) (b : List Nat) (st : Int) : List (List Nat × Nat) :=
  stepRunF M b.length b st

/-- The (rest, state) pair after `k` calls of `Step`. -/
def stepIter (M : Model) : Nat → List Nat × Int → List Nat × Int
  | 0, p => p
  | k + 1, p =>
    if p.1 = [] then p
    else stepIter M k ((Step M p.1 p.2).2.1, (Step M p.1 p.2).2.2.2)

/-- The outputs of the first `k` calls of `Step`. -/
def stepTaken (M : Model) : Nat → List Nat → Int → List (List Nat × Nat)
  | 0, _, _ => []
  | k + 1, b, st =>
    if b = [] then []
    else ((Step M b st).1, (Step M b st).2.2.1) :: stepTaken M k (Step M b st).2.1 (Step M b st).2.2.2

/-- Rune-level driver of the legacy line break machine from a given
state: the verdict reported before each code point, the remainder
passed as the UTF-8 encoding of the following code points. -/
def lineBreaksLegacy (M : Model) : Int → List Nat → List Nat
  | _, [] => []
  | st, r :: rs =>
    let res := transitionLineBreakState M st r (utf8Encode rs)
    res.2 :: lineBreaksLegacy M res.1 rs

/-- Rune-level driver of the context line break machine, matching
`lineBreaksLegacy`. -/
def lineBreaksContext (M : Model) : Int → List Nat → List Nat
  | _, [] => []
  | st, r :: rs =>
    let res := transitionLineBreakStateContext M st r (utf8Encode rs)
    res.2 :: lineBreaksContext M (res.1 : Int) rs

/-! ## Bit-level helper lemmas -/

theorem lor_shiftLeft_eq_add {a : Nat} (b k : Nat) (h : a < 2 ^ k) :
    a ||| (b <<< k) = a + b * 2 ^ k := by
  apply Nat.eq_of_testBit_eq
  intro i
  rw [Nat.add_comm, Nat.mul_comm, Nat.testBit_lor, Nat.testBit_shiftLeft,
    Nat.testBit_mul_pow_two_add b h i]
  rcases Nat.lt_or_ge i k with hi | hi
  · simp [Nat.not_le.2 hi, hi]
  · simp [hi, Nat.not_lt.2 hi,
      Nat.testBit_lt_two_pow (lt_of_lt_of_le h (Nat.pow_le_pow_right (by norm_num) hi))]

/-- The end-of-input boundaries value of `Step`: the line verdict field
is MustBreak and the word and sentence bits are set, whatever the
width. -/
theorem step_end_bits (w : Nat) :
    (LineMustBreak ||| (1 <<< shiftWord) ||| (1 <<< shiftSentence) |||
        (w <<< ShiftWidth)) &&& MaskLine = LineMustBreak ∧
      (LineMustBreak ||| (1 <<< shiftWord) ||| (1 <<< shiftSentence) |||
        (w <<< ShiftWidth)) &&& MaskWord ≠ 0 ∧
      (LineMustBreak ||| (1 <<< shiftWord) ||| (1 <<< shiftSentence) |||
        (w <<< ShiftWidth)) &&& MaskSentence ≠ 0 := by
  have h14 : LineMustBreak ||| (1 <<< shiftWord) ||| (1 <<< shiftSentence) = 14 := by decide
  have hB : LineMustBreak ||| (1 <<< shiftWord) ||| (1 <<< shiftSentence) |||
      (w <<< ShiftWidth) = 14 + 16 * w := by
    rw [h14]
    have := lor_shiftLeft_eq_add (a := 14) w 4 (by norm_num)
    simpa [ShiftWidth, Nat.mul_comm] using this
  rw [hB]
  refine ⟨?_, ?_, ?_⟩
  · have := Nat.and_pow_two_sub_one_eq_mod (14 + 16 * w) 2
    norm_num at this
    rw [show MaskLine = 3 from rfl, this, LineMustBreak]
    omega
  · have := Nat.and_two_pow (14 + 16 * w) 2
    norm_num at this
    rw [show MaskWord = 4 from rfl, this]
    have hb : (14 + 16 * w).testBit 2 = true := by
      rw [Nat.testBit_to_div_mod]
      norm_num
      omega
    rw [hb]
    simp
  · have := Nat.and_two_pow (14 + 16 * w) 3
    norm_num at this
    rw [show MaskSentence = 8 from rfl, this]
    have hb : (14 + 16 * w).testBit 3 = true := by
      rw [Nat.testBit_to_div_mod]
      norm_num
      omega
    rw [hb]
    simp

/-! ## Structural lemmas about the `Step` loop -/

theorem stepLoop_concat (M : Model) (b : List Nat) :
    ∀ fuel length gs ws ss ls fp w,
      (stepLoop M b fuel length gs ws ss ls fp w).1 ++
        (stepLoop M b fuel length gs ws ss ls fp w).2.1 = b := by
  intro fuel
  induction fuel with
  | zero => intro length gs ws ss ls fp w; simp [stepLoop]
  | succ n ih =>
    intro length gs ws ss ls fp w
    simp only [stepLoop]
    split
    · simp
    · split
      · simp
      · exact ih _ _ _ _ _ _ _

theorem stepLoop_progress (M : Model) (b : List Nat) :
    ∀ fuel length gs ws ss ls fp w, 1 ≤ length → length < b.length →
      (stepLoop M b fuel length gs ws ss ls fp w).1 ≠ [] ∧
        (stepLoop M b fuel length gs ws ss ls fp w).2.1.length < b.length := by
  intro fuel
  induction fuel with
  | zero =>
    intro length gs ws ss ls fp w h1 h2
    constructor
    · apply List.ne_nil_of_length_pos
      simp only [stepLoop, List.length_take]
      omega
    · simp only [stepLoop, List.length_drop]
      omega
  | succ n ih =>
    intro length gs ws ss ls fp w h1 h2
    have hdrop : b.drop length ≠ [] := by
      intro hc
      rw [List.drop_eq_nil_iff] at hc
      omega
    have hl : 1 ≤ (utf8DecodeRune (b.drop length)).2 := utf8DecodeRune_size_pos _ hdrop
    simp only [stepLoop]
    split
    · constructor
      · apply List.ne_nil_of_length_pos
        simp only [List.length_take]
        omega
      · simp only [List.length_drop]
        omega
    · split
      next hend =>
        constructor
        · intro hc
          subst hc
          simp at h2
        · simp only [List.length_nil]
          omega
      next hend => exact ih _ _ _ _ _ _ _ (by omega) (by omega)

theorem stepLoop_end_bits (M : Model) (b : List Nat) :
    ∀ fuel length gs ws ss ls fp w, length < b.length →
      (stepLoop M b fuel length gs ws ss ls fp w).2.1 = [] →
      (stepLoop M b fuel length gs ws ss ls fp w).2.2.1 &&& MaskLine = LineMustBreak ∧
        (stepLoop M b fuel length gs ws ss ls fp w).2.2.1 &&& MaskWord ≠ 0 ∧
        (stepLoop M b fuel length gs ws ss ls fp w).2.2.1 &&& MaskSentence ≠ 0 := by
  intro fuel
  induction fuel with
  | zero =>
    intro length gs ws ss ls fp w h2 hrest
    simp only [stepLoop, List.drop_eq_nil_iff] at hrest
    omega
  | succ n ih =>
    intro length gs ws ss ls fp w h2 hrest
    simp only [stepLoop] at hrest ⊢
    by_cases hb :
      (transitionGraphemeState M (gs : Int) (utf8DecodeRune (b.drop length)).1).2.2 = true
    · rw [if_pos hb] at hrest
      dsimp only at hrest
      rw [List.drop_eq_nil_iff] at hrest
      omega
    · rw [if_neg hb] at hrest ⊢
      by_cases hend : b.length ≤ length + (utf8DecodeRune (b.drop length)).2
      · rw [if_pos hend]
        exact step_end_bits _
      · rw [if_neg hend] at hrest ⊢
        exact ih _ _ _ _ _ _ _ (by omega) hrest

theorem Step_concat (M : Model) (b : List Nat) (st : Int) :
    (Step M b st).1 ++ (Step M b st).2.1 = b := by
  by_cases hb : b = []
  · simp [Step, hb]
  · simp only [Step, if_neg hb]
    by_cases hone : b.length ≤ (utf8DecodeRune b).2
    · rw [if_pos hone]
      simp
    · rw [if_neg hone]
      exact stepLoop_concat M b _ _ _ _ _ _ _ _

theorem Step_progress (M : Model) (b : List Nat) (st : Int) (hb : b ≠ []) :
    (Step M b st).1 ≠ [] ∧ (Step M b st).2.1.length < b.length := by
  have hbl : 0 < b.length := List.length_pos.2 hb
  simp only [Step, if_neg hb]
  by_cases hone : b.length ≤ (utf8DecodeRune b).2
  · rw [if_pos hone]
    exact ⟨hb, by simpa using hbl⟩
  · rw [if_neg hone]
    exact stepLoop_progress M b _ _ _ _ _ _ _ _
      (utf8DecodeRune_size_pos b hb) (by omega)

theorem Step_end_bits (M : Model) (b : List Nat) (st : Int) (hb : b ≠ [])
    (hrest : (Step M b st).2.1 = []) :
    (Step M b st).2.2.1 &&& MaskLine = LineMustBreak ∧
      (Step M b st).2.2.1 &&& MaskWord ≠ 0 ∧
      (Step M b st).2.2.1 &&& MaskSentence ≠ 0 := by
  simp only [Step, if_neg hb] at hrest ⊢
  by_cases hone : b.length ≤ (utf8DecodeRune b).2
  · rw [if_pos hone]
    exact step_end_bits _
  · rw [if_neg hone] at hrest ⊢
    exact stepLoop_end_bits M b _ _ _ _ _ _ _ _ (by omega) hrest

/-! ## Lemmas about the iteration drivers -/

theorem stepRunF_fuel (M : Model) :
    ∀ fuel (b : List Nat) (st : Int), b.length ≤ fuel →
      stepRunF M fuel b st = stepRunF M b.length b st := by
  intro fuel
  induction fuel using Nat.strong_induction_on with
  | _ fuel ih =>
    match fuel with
    | 0 =>
      intro b st h
      have : b = [] := by
        cases b with
        | nil => rfl
        | cons x xs => simp at h
      subst this
      rfl
    | n + 1 =>
      intro b st h
      by_cases hb : b = []
      · subst hb
        simp [stepRunF]
      · have hbl : 0 < b.length := List.length_pos.2 hb
        obtain ⟨k, hk⟩ : ∃ k, b.length = k + 1 := ⟨b.length - 1, by omega⟩
        have hrest := (Step_progress M b st hb).2
        rw [hk]
        simp only [stepRunF, if_neg hb]
        congr 1
        rw [ih n (by omega) _ _ (by omega), ih k (by omega) _ _ (by omega)]

theorem stepRun_cons (M : Model) (b : List Nat) (st : Int) (hb : b ≠ []) :
    stepRun M b st = ((Step M b st).1, (Step M b st).2.2.1) ::
      stepRun M (Step M b st).2.1 (Step M b st).2.2.2 := by
  have hbl : 0 < b.length := List.length_pos.2 hb
  obtain ⟨k, hk⟩ : ∃ k, b.length = k + 1 := ⟨b.length - 1, by omega⟩
  have hrest := (Step_progress M b st hb).2
  unfold stepRun
  rw [hk]
  simp only [stepRunF, if_neg hb]
  congr 1
  exact stepRunF_fuel M k _ _ (by omega)

theorem stepRun_nil (M : Model) (st : Int) : stepRun M [] st = [] := rfl

theorem stepRun_join (M : Model) :
    ∀ (n : Nat) (b : List Nat) (st : Int), b.length ≤ n →
      ((stepRun M b st).map Prod.fst).flatten = b := by
  intro n
  induction n with
  | zero =>
    intro b st h
    have : b = [] := by
      cases b with
      | nil => rfl
      | cons x xs => simp at h
    subst this
    simp [stepRun_nil]
  | succ n ih =>
    intro b st h
    by_cases hb : b = []
    · subst hb
      simp [stepRun_nil]
    · rw [stepRun_cons M b st hb]
      simp only [List.map_cons, List.flatten_cons]
      rw [ih _ _ (by have := (Step_progress M b st hb).2; omega)]
      exact Step_concat M b st

theorem stepRun_resume (M : Model) :
    ∀ (k : Nat) (b : List Nat) (st : Int),
      stepRun M b st = stepTaken M k b st ++
        stepRun M (stepIter M k (b, st)).1 (stepIter M k (b, st)).2 := by
  intro k
  induction k with
  | zero => intro b st; simp [stepTaken, stepIter]
  | succ n ih =>
    intro b st
    by_cases hb : b = []
    · subst hb
      simp [stepTaken, stepIter, stepRun_nil]
    · rw [stepRun_cons M b st hb]
      simp only [stepTaken, stepIter, if_neg hb]
      rw [List.cons_append]
      congr 1
      exact ih _ _

/-! ## The claims -/

/-- C1: for every byte slice `b` and every state token, `Step` returns
a cluster and rest whose concatenation is `b`; iterating `Step` from
the initial state until the rest is empty yields clusters whose
concatenation is the original input. -/
theorem claim_C1_step_exhaustive (M : Model) (b : List Nat) (st : Int) :
    (Step M b st).1 ++ (Step M b st).2.1 = b ∧
      ((stepRun M b (-1)).map Prod.fst).flatten = b :=
  ⟨Step_concat M b st, stepRun_join M b.length b (-1) le_rfl⟩

/-- C3: on non-empty input, the `Step` call that consumes the final
bytes (the one returning empty rest) reports a line verdict of
`LineMustBreak` with the word- and sentence-boundary bits set. -/
theorem claim_C3_final_call_verdicts (M : Model) (b : List Nat) (st : Int)
    (hb : b ≠ []) (hrest : (Step M b st).2.1 = []) :
    (Step M b st).2.2.1 &&& MaskLine = LineMustBreak ∧
      (Step M b st).2.2.1 &&& MaskWord ≠ 0 ∧
      (Step M b st).2.2.1 &&& MaskSentence ≠ 0 :=
  Step_end_bits M b st hb hrest

theorem claim_C3_witness :
    (Step specModel [97] (-1)).2.2.1 &&& MaskLine = LineMustBreak ∧
      (Step specModel [97] (-1)).2.2.1 &&& MaskWord ≠ 0 ∧
      (Step specModel [97] (-1)).2.2.1 &&& MaskSentence ≠ 0 :=
  claim_C3_final_call_verdicts specModel [97] (-1) (by decide) (by decide)

/-- C9: on non-empty input every `Step` call returns a non-empty
cluster and a rest strictly shorter than its input, so iteration
terminates. -/
theorem claim_C9_monotone_consumption (M : Model) (b : List Nat) (st : Int)
    (hb : b ≠ []) :
    (Step M b st).1 ≠ [] ∧ (Step M b st).2.1.length < b.length :=
  Step_progress M b st hb

theorem claim_C9_witness :
    (Step specModel [97, 98] (-1)).1 ≠ [] ∧
      (Step specModel [97, 98] (-1)).2.1.length < ([97, 98] : List Nat).length :=
  claim_C9_monotone_consumption specModel [97, 98] (-1) (by decide)

/-- C6 counterexample: on empty input `Step` returns a zero state
token, which is not the reserved negative initial sentinel. -/
theorem claim_C6_counterexample :
    (Step specModel [] 5).2.2.2 = 0 ∧ ¬(Step specModel [] 5).2.2.2 < 0 := by
  constructor
  · rfl
  · decide

/-- C6 amended: for empty input and any state, `Step` and `StepString`
return empty cluster, empty rest, no verdict, and a zero state token
(not the negative sentinel); `FirstLineSegmentContext` returns the -1
initial token. -/
theorem claim_C6_empty_input (M : Model) (st : Int) :
    Step M [] st = ([], [], 0, 0) ∧ StepString M [] st = ([], [], 0, 0) ∧
      FirstLineSegmentContext M [] st = ([], [], 0, -1) :=
  ⟨rfl, rfl, rfl⟩

/-- C4 counterexample: on the single-code-point input `"\n"` from the
initial state, `Step` caches the grapheme property of the rune in the
returned state token while `StepString` omits it, so the two functions
disagree. -/
theorem claim_C4_counterexample :
    Step specModel [0x0a] (-1) ≠ StepString specModel [0x0a] (-1) := by
  decide

/-- C4 amended: `StepString` returns the same cluster and rest as
`Step` always, and the same boundaries and state token whenever the
input extends past its first code point; on a single-code-point input
the two differ (`StepString` recomputes the cached property and omits
it from the state token). -/
theorem claim_C4_step_string_agreement (M : Model) (b : List Nat) (st : Int) :
    (Step M b st).1 = (StepString M b st).1 ∧
      (Step M b st).2.1 = (StepString M b st).2.1 ∧
      ((utf8DecodeRune b).2 < b.length → Step M b st = StepString M b st) := by
  by_cases hb : b = []
  · subst hb
    exact ⟨rfl, rfl, fun _ => rfl⟩
  · simp only [Step, StepString, if_neg hb]
    by_cases hone : b.length ≤ (utf8DecodeRune b).2
    · rw [if_pos hone, if_pos hone]
      exact ⟨rfl, rfl, fun hc => absurd hone (by omega)⟩
    · rw [if_neg hone, if_neg hone]
      exact ⟨rfl, rfl, fun _ => rfl⟩

theorem claim_C4_witness :
    (utf8DecodeRune [97, 98]).2 < ([97, 98] : List Nat).length ∧
      Step specModel [97, 98] (-1) = StepString specModel [97, 98] (-1) :=
  ⟨by decide, (claim_C4_step_string_agreement specModel [97, 98] (-1)).2.2 (by decide)⟩

/-- C10: packing a `LineContext` whose state and flags fit in 8 bits
and unpacking it is the identity, and unpacking any negative value
yields the initial context (state -1 with only the start-of-text
flag). -/
theorem claim_C10_pack_roundtrip (ctx : LineContext) (h0 : 0 ≤ ctx.State)
    (h255 : ctx.State ≤ 255) (hf : ctx.Flags ≤ 255) (p : Int) (hp : p < 0) :
    unpackLineContext (packLineContext ctx) = ctx ∧
      unpackLineContext p = ⟨-1, lbCtxSot⟩ := by
  constructor
  · have hs : goAnd ctx.State 0xFF = ctx.State.toNat := by
      unfold goAnd
      rw [Int.emod_eq_of_lt h0 (by omega)]
      have := Nat.and_pow_two_sub_one_eq_mod ctx.State.toNat 8
      norm_num at this
      rw [this]
      omega
    have hsn : ctx.State.toNat ≤ 255 := by omega
    have hpack : packLineContext ctx = ctx.State.toNat + ctx.Flags * 256 := by
      unfold packLineContext
      rw [hs, Nat.lor_comm]
      have := lor_shiftLeft_eq_add (a := ctx.State.toNat) ctx.Flags 8 (by omega)
      norm_num at this
      exact this
    unfold unpackLineContext
    rw [if_neg (by omega)]
    have htn : ((packLineContext ctx : Int)).toNat = ctx.State.toNat + ctx.Flags * 256 := by
      rw [hpack]; rfl
    have e1 : (ctx.State.toNat + ctx.Flags * 256) &&& 0xFF = ctx.State.toNat := by
      have := Nat.and_pow_two_sub_one_eq_mod (ctx.State.toNat + ctx.Flags * 256) 8
      norm_num at this
      rw [this]
      omega
    have e2 : ((ctx.State.toNat + ctx.Flags * 256) >>> 8) &&& 0xFF = ctx.Flags := by
      rw [Nat.shiftRight_eq_div_pow]
      norm_num
      have hdiv : (ctx.State.toNat + ctx.Flags * 256) / 256 = ctx.Flags := by omega
      rw [hdiv]
      have := Nat.and_pow_two_sub_one_eq_mod ctx.Flags 8
      norm_num at this
      rw [this]
      omega
    rw [htn, e1, e2]
    cases ctx with
    | mk S F =>
      simp only [LineContext.mk.injEq]
      constructor
      · simp only at h0 ⊢
        omega
      · trivial
  · unfold unpackLineContext
    rw [if_pos hp]

theorem claim_C10_witness :
    unpackLineContext (packLineContext ⟨19, 33⟩) = ⟨19, 33⟩ ∧
      unpackLineContext (-3) = ⟨-1, lbCtxSot⟩ :=
  claim_C10_pack_roundtrip ⟨19, 33⟩ (by decide) (by decide) (by decide) (-3) (by decide)

theorem land_shiftLeft (x m k : Nat) :
    x &&& (m <<< k) = ((x >>> k) &&& m) <<< k := by
  apply Nat.eq_of_testBit_eq
  intro i
  rw [Nat.testBit_land, Nat.testBit_shiftLeft, Nat.testBit_shiftLeft, Nat.testBit_land,
    Nat.testBit_shiftRight]
  rcases Nat.lt_or_ge i k with hi | hi
  · simp [Nat.not_le.2 hi]
  · rw [Nat.add_sub_cancel' hi]
    simp only [ge_iff_le, hi]
    simp [Bool.and_comm, Bool.and_assoc, Bool.and_left_comm]

theorem grTransitions_state_le (s p : Nat) (x : Nat × Nat × Nat)
    (h : grTransitions s p = some x) : x.1 ≤ 10 :=
  tableLookup_some (fun v => v.1 ≤ 10) grTransitionTable (s, p) x (by decide) h

/-- C7: in `transitionGraphemeState`, whenever the InCB sub-state of
the incoming state is ConsonantLinker and the next code point's
Indic_Conjunct_Break property is Consonant, GB9c suppresses the
boundary and the new state's InCB sub-state is Consonant. -/
theorem claim_C7_incb_consonant (M : Model) (state : Int) (r : Nat)
    (h1 : goAnd state grInCBMask = grInCBLinker)
    (h2 : propertyInCB M r = prInCBConsonant) :
    (transitionGraphemeState M state r).2.2 = false ∧
      (transitionGraphemeState M state r).1 &&& grInCBMask = grInCBConsonant := by
  have hb : ∀ ns : Nat, ns ≤ 10 →
      (ns ||| grInCBConsonant) &&& grInCBMask = grInCBConsonant := by
    intro ns hns
    have e1 : ns ||| grInCBConsonant = ns + 256 := by
      have := lor_shiftLeft_eq_add (a := ns) 1 8 (by omega)
      norm_num at this
      rw [show grInCBConsonant = 1 <<< 8 from rfl]
      omega
    rw [e1, show grInCBMask = 0xF <<< 8 from rfl, land_shiftLeft,
      Nat.shiftRight_eq_div_pow]
    have h256 : (ns + 256) / 2 ^ 8 = 1 := by omega
    rw [h256]
    decide
  have hex : ∃ ns, ns ≤ 10 ∧ transitionGraphemeState M state r =
      (ns ||| grInCBConsonant, propertyGraphemes M r, false) := by
    unfold transitionGraphemeState
    rcases hM : grTransitions (goAnd state 0xFF) (propertyGraphemes M r) with _ | ⟨ns, np, rl⟩
    · rcases hM2 : grTransitions (goAnd state 0xFF) prAny with _ | ⟨aps, app, apr⟩ <;>
        rcases hM3 : grTransitions grAny (propertyGraphemes M r) with _ | ⟨ass, asp, asr⟩
      · exact ⟨grAny, by decide, by simp [hM, hM2, hM3, h1, h2]⟩
      · exact ⟨ass, grTransitions_state_le _ _ _ hM3, by simp [hM, hM2, hM3, h1, h2]⟩
      · exact ⟨aps, grTransitions_state_le _ _ _ hM2, by simp [hM, hM2, hM3, h1, h2]⟩
      · exact ⟨ass, grTransitions_state_le _ _ _ hM3, by simp [hM, hM2, hM3, h1, h2]⟩
    · exact ⟨ns, grTransitions_state_le _ _ _ hM, by simp [hM, h1, h2]⟩
  obtain ⟨ns, hns, heq⟩ := hex
  rw [heq]
  exact ⟨rfl, hb ns hns⟩

theorem claim_C7_witness :
    goAnd (0x300 : Int) grInCBMask = grInCBLinker ∧
      propertyInCB specModel 0x915 = prInCBConsonant ∧
      ((transitionGraphemeState specModel 0x300 0x915).2.2 = false ∧
        (transitionGraphemeState specModel 0x300 0x915).1 &&& grInCBMask = grInCBConsonant) :=
  ⟨by decide, by decide,
    claim_C7_incb_consonant specModel 0x300 0x915 (by decide) (by decide)⟩

/-- C2 counterexample: for X = "a" and Y = "b", running `Step` over
X ++ Y from the initial state and running it over X and then over Y
with the state returned by the last call on X yield different
boundaries (already in the line-verdict field: the call consuming "a"
reports MustBreak in the split run but DontBreak in the joint run). -/
theorem claim_C2_counterexample :
    (stepRun specModel ([97] ++ [98]) (-1)).map (fun p => p.2 &&& MaskLine) ≠
      ((stepRun specModel [97] (-1) ++
        stepRun specModel [98] (Step specModel [97] (-1)).2.2.2).map
          (fun p => p.2 &&& MaskLine)) := by
  decide

/-- C2 amended: the state token resumes the iteration only together
with the rest slice of the same call: running `Step` over `b` for `k`
calls and then continuing from the returned rest and state yields
exactly the uninterrupted sequence of clusters and boundaries.
(Feeding fresh input after the final call does not, since the final
call resets the analyzers and reports the end-of-input verdicts.) -/
theorem claim_C2_state_resumption (M : Model) (b : List Nat) (st : Int) (k : Nat) :
    stepRun M b st = stepTaken M k b st ++
      stepRun M (stepIter M k (b, st)).1 (stepIter M k (b, st)).2 :=
  stepRun_resume M k b st

/-- C8 counterexample: on "Hello" the line verdicts reported by
repeated `Step` calls are not Can,Can,Can,Can,Must. -/
theorem claim_C8_counterexample :
    (stepRun specModel [72, 101, 108, 108, 111] (-1)).map (fun p => p.2 &&& MaskLine) ≠
      [LineCanBreak, LineCanBreak, LineCanBreak, LineCanBreak, LineMustBreak] := by
  decide

/-- C8 amended: on "Hello" the clusters are H,e,l,l,o and the line
verdicts per cluster are DontBreak,DontBreak,DontBreak,DontBreak,
MustBreak (letters do not admit a break between them, LB28). -/
theorem claim_C8_hello :
    (stepRun specModel [72, 101, 108, 108, 111] (-1)).map Prod.fst =
        [[72], [101], [108], [108], [111]] ∧
      (stepRun specModel [72, 101, 108, 108, 111] (-1)).map (fun p => p.2 &&& MaskLine) =
        [LineDontBreak, LineDontBreak, LineDontBreak, LineDontBreak, LineMustBreak] := by
  decide

/-! ## C5: the legacy and the context line break machines -/

/-- C5 counterexample: on the code point sequence "1/2" the two line
break machines disagree at the position before '2' (the legacy machine
keeps the LB25 numeric run `NU SY x NU` together, the context
machine's restricted LB25 does not). -/
theorem claim_C5_counterexample :
    lineBreaksLegacy specModel (-1) [0x31, 0x2F, 0x32] ≠
      lineBreaksContext specModel (-1) [0x31, 0x2F, 0x32] := by
  decide

/-- An ASCII letter or digit, the code points whose line break class
comes from the fast paths of `propertyLineBreak`. -/
def isAsciiLetterDigit (r : Nat) : Prop :=
  (0x61 ≤ r ∧ r ≤ 0x7a) ∨ (0x41 ≤ r ∧ r ≤ 0x5a) ∨ (0x30 ≤ r ∧ r ≤ 0x39)

instance : DecidablePred isAsciiLetterDigit := fun r => by
  unfold isAsciiLetterDigit
  infer_instance

theorem legacy_letter_init (M : Model) (r : Nat) (rem : List Nat) (g : Nat)
    (hL : propertyLineBreak M r = (prAL, g)) (hGr : propertyGraphemes M r = prAny)
    (hDC : r ≠ 0x25CC) : transitionLineBreakState M (-1) r rem = (29, 1) := by
  simp only [transitionLineBreakState, hL, hGr]
  simp +decide [hDC]

theorem legacy_letter_AL (M : Model) (r : Nat) (rem : List Nat) (g : Nat)
    (hL : propertyLineBreak M r = (prAL, g)) (hGr : propertyGraphemes M r = prAny)
    (hDC : r ≠ 0x25CC) : transitionLineBreakState M 29 r rem = (29, 0) := by
  simp only [transitionLineBreakState, hL, hGr]
  simp +decide [hDC]

theorem legacy_letter_NU (M : Model) (r : Nat) (rem : List Nat) (g : Nat)
    (hL : propertyLineBreak M r = (prAL, g)) (hGr : propertyGraphemes M r = prAny)
    (hDC : r ≠ 0x25CC) : transitionLineBreakState M 30 r rem = (29, 0) := by
  simp only [transitionLineBreakState, hL, hGr]
  simp +decide [hDC]

theorem legacy_letter_NUNU (M : Model) (r : Nat) (rem : List Nat) (g : Nat)
    (hL : propertyLineBreak M r = (prAL, g)) (hGr : propertyGraphemes M r = prAny)
    (hDC : r ≠ 0x25CC) : transitionLineBreakState M 34 r rem = (29, 0) := by
  simp only [transitionLineBreakState, hL, hGr]
  simp +decide [hDC]

theorem legacy_digit_init (M : Model) (r : Nat) (rem : List Nat) (g : Nat)
    (hL : propertyLineBreak M r = (prNU, g)) (hGr : propertyGraphemes M r = prAny)
    (hDC : r ≠ 0x25CC) : transitionLineBreakState M (-1) r rem = (30, 1) := by
  simp only [transitionLineBreakState, hL, hGr]
  simp +decide [hDC]

theorem legacy_digit_AL (M : Model) (r : Nat) (rem : List Nat) (g : Nat)
    (hL : propertyLineBreak M r = (prNU, g)) (hGr : propertyGraphemes M r = prAny)
    (hDC : r ≠ 0x25CC) : transitionLineBreakState M 29 r rem = (30, 0) := by
  simp only [transitionLineBreakState, hL, hGr]
  simp +decide [hDC]

theorem legacy_digit_NU (M : Model) (r : Nat) (rem : List Nat) (g : Nat)
    (hL : propertyLineBreak M r = (prNU, g)) (hGr : propertyGraphemes M r = prAny)
    (hDC : r ≠ 0x25CC) : transitionLineBreakState M 30 r rem = (34, 0) := by
  simp only [transitionLineBreakState, hL, hGr]
  simp +decide [hDC]

theorem legacy_digit_NUNU (M : Model) (r : Nat) (rem : List Nat) (g : Nat)
    (hL : propertyLineBreak M r = (prNU, g)) (hGr : propertyGraphemes M r = prAny)
    (hDC : r ≠ 0x25CC) : transitionLineBreakState M 34 r rem = (34, 0) := by
  simp only [transitionLineBreakState, hL, hGr]
  simp +decide [hDC]

theorem context_letter_init (M : Model) (r : Nat) (rem : List Nat) (g : Nat)
    (hL : propertyLineBreak M r = (prAL, g)) (hGr : propertyGraphemes M r = prAny)
    (hDC : r ≠ 0x25CC) : transitionLineBreakStateContext M (-1) r rem = (19, 1) := by
  have hDCb : (r == 0x25CC) = false := by simp [hDC]
  simp only [transitionLineBreakStateContext, transitionLineBreakContext, unpackLineContext,
    packLineContext, hL, hGr, hDCb]
  simp +decide [hDC, applyLB28a, applyLB25, nextContext, applyBreak, propToState,
    goClear, goAnd, hGr]

theorem context_letter_AL (M : Model) (r : Nat) (rem : List Nat) (g : Nat)
    (hL : propertyLineBreak M r = (prAL, g)) (hGr : propertyGraphemes M r = prAny)
    (hDC : r ≠ 0x25CC) : transitionLineBreakStateContext M 19 r rem = (19, 0) := by
  have hDCb : (r == 0x25CC) = false := by simp [hDC]
  simp only [transitionLineBreakStateContext, transitionLineBreakContext, unpackLineContext,
    packLineContext, hL, hGr, hDCb]
  simp +decide [hDC, applyLB28a, applyLB25, nextContext, applyBreak, propToState,
    goClear, goAnd, hGr]

theorem context_letter_NU (M : Model) (r : Nat) (rem : List Nat) (g : Nat)
    (hL : propertyLineBreak M r = (prAL, g)) (hGr : propertyGraphemes M r = prAny)
    (hDC : r ≠ 0x25CC) : transitionLineBreakStateContext M 21 r rem = (19, 0) := by
  have hDCb : (r == 0x25CC) = false := by simp [hDC]
  simp only [transitionLineBreakStateContext, transitionLineBreakContext, unpackLineContext,
    packLineContext, hL, hGr, hDCb]
  simp +decide [hDC, applyLB28a, applyLB25, nextContext, applyBreak, propToState,
    goClear, goAnd, hGr]

theorem context_digit_init (M : Model) (r : Nat) (rem : List Nat) (g : Nat)
    (hL : propertyLineBreak M r = (prNU, g)) (hGr : propertyGraphemes M r = prAny)
    (hDC : r ≠ 0x25CC) : transitionLineBreakStateContext M (-1) r rem = (21, 1) := by
  have hDCb : (r == 0x25CC) = false := by simp [hDC]
  simp only [transitionLineBreakStateContext, transitionLineBreakContext, unpackLineContext,
    packLineContext, hL, hGr, hDCb]
  simp +decide [hDC, applyLB28a, applyLB25, nextContext, applyBreak, propToState,
    goClear, goAnd, hGr]

theorem context_digit_AL (M : Model) (r : Nat) (rem : List Nat) (g : Nat)
    (hL : propertyLineBreak M r = (prNU, g)) (hGr : propertyGraphemes M r = prAny)
    (hDC : r ≠ 0x25CC) : transitionLineBreakStateContext M 19 r rem = (21, 0) := by
  have hDCb : (r == 0x25CC) = false := by simp [hDC]
  simp only [transitionLineBreakStateContext, transitionLineBreakContext, unpackLineContext,
    packLineContext, hL, hGr, hDCb]
  simp +decide [hDC, applyLB28a, applyLB25, nextContext, applyBreak, propToState,
    goClear, goAnd, hGr]

theorem context_digit_NU (M : Model) (r : Nat) (rem : List Nat) (g : Nat)
    (hL : propertyLineBreak M r = (prNU, g)) (hGr : propertyGraphemes M r = prAny)
    (hDC : r ≠ 0x25CC) : transitionLineBreakStateContext M 21 r rem = (21, 0) := by
  have hDCb : (r == 0x25CC) = false := by simp [hDC]
  simp only [transitionLineBreakStateContext, transitionLineBreakContext, unpackLineContext,
    packLineContext, hL, hGr, hDCb]
  simp +decide [hDC, applyLB28a, applyLB25, nextContext, applyBreak, propToState,
    goClear, goAnd, hGr]

theorem lineBreaks_bisim (M : Model) :
    ∀ rs : List Nat, (∀ r ∈ rs, isAsciiLetterDigit r) →
      ∀ sL sC : Int,
        ((sL = -1 ∧ sC = -1) ∨ (sL = 29 ∧ sC = 19) ∨ (sL = 30 ∧ sC = 21) ∨
          (sL = 34 ∧ sC = 21)) →
        lineBreaksLegacy M sL rs = lineBreaksContext M sC rs := by
  intro rs
  induction rs with
  | nil => intro _ sL sC _; rfl
  | cons r rs ih =>
    intro hall sL sC hR
    have hr : isAsciiLetterDigit r := hall r (by simp)
    have hall' : ∀ x ∈ rs, isAsciiLetterDigit x := fun x hx => hall x (by simp [hx])
    have hGr : propertyGraphemes M r = prAny := by
      unfold propertyGraphemes
      rw [if_pos (by rcases hr with h | h | h <;> exact ⟨by omega, by omega⟩)]
    have hDC : r ≠ 0x25CC := by rcases hr with h | h | h <;> omega
    have hcase : (∃ g, propertyLineBreak M r = (prAL, g)) ∨
        (∃ g, propertyLineBreak M r = (prNU, g)) := by
      rcases hr with h | h | h
      · exact Or.inl ⟨gcLl, by unfold propertyLineBreak; rw [if_pos h]⟩
      · exact Or.inl ⟨gcLu, by unfold propertyLineBreak; rw [if_neg (by omega), if_pos h]⟩
      · exact Or.inr ⟨gcNd, by
          unfold propertyLineBreak
          rw [if_neg (by omega), if_neg (by omega), if_pos h]⟩
    rcases hcase with ⟨g, hL⟩ | ⟨g, hL⟩
    · rcases hR with ⟨e1, e2⟩ | ⟨e1, e2⟩ | ⟨e1, e2⟩ | ⟨e1, e2⟩ <;> subst e1 <;> subst e2 <;>
        simp only [lineBreaksLegacy, lineBreaksContext,
          legacy_letter_init M r (utf8Encode rs) g hL hGr hDC,
          legacy_letter_AL M r (utf8Encode rs) g hL hGr hDC,
          legacy_letter_NU M r (utf8Encode rs) g hL hGr hDC,
          legacy_letter_NUNU M r (utf8Encode rs) g hL hGr hDC,
          context_letter_init M r (utf8Encode rs) g hL hGr hDC,
          context_letter_AL M r (utf8Encode rs) g hL hGr hDC,
          context_letter_NU M r (utf8Encode rs) g hL hGr hDC] <;>
        norm_num <;>
        exact ih hall' 29 19 (Or.inr (Or.inl ⟨rfl, by norm_num⟩))
    · rcases hR with ⟨e1, e2⟩ | ⟨e1, e2⟩ | ⟨e1, e2⟩ | ⟨e1, e2⟩ <;> subst e1 <;> subst e2 <;>
        simp only [lineBreaksLegacy, lineBreaksContext,
          legacy_digit_init M r (utf8Encode rs) g hL hGr hDC,
          legacy_digit_AL M r (utf8Encode rs) g hL hGr hDC,
          legacy_digit_NU M r (utf8Encode rs) g hL hGr hDC,
          legacy_digit_NUNU M r (utf8Encode rs) g hL hGr hDC,
          context_digit_init M r (utf8Encode rs) g hL hGr hDC,
          context_digit_AL M r (utf8Encode rs) g hL hGr hDC,
          context_digit_NU M r (utf8Encode rs) g hL hGr hDC] <;>
        norm_num <;>
        first
          | exact ih hall' 30 21 (Or.inr (Or.inr (Or.inl ⟨rfl, by norm_num⟩)))
          | exact ih hall' 34 21 (Or.inr (Or.inr (Or.inr ⟨rfl, by norm_num⟩)))

/-- C5 amended: the legacy table-driven machine and the context-based
machine produce identical verdict sequences from the initial state on
every code point sequence of ASCII letters and digits; in general they
differ (for example at "1/2", see the counterexample). -/
theorem claim_C5_machines_agree_letters_digits (M : Model) (rs : List Nat)
    (h : ∀ r ∈ rs, isAsciiLetterDigit r) :
    lineBreaksLegacy M (-1) rs = lineBreaksContext M (-1) rs :=
  lineBreaks_bisim M rs h (-1) (-1) (Or.inl ⟨rfl, rfl⟩)

theorem claim_C5_witness :
    (∀ r ∈ [0x61, 0x62, 0x31, 0x41], isAsciiLetterDigit r) ∧
      lineBreaksLegacy specModel (-1) [0x61, 0x62, 0x31, 0x41] =
        lineBreaksContext specModel (-1) [0x61, 0x62, 0x31, 0x41] :=
  ⟨by decide, claim_C5_machines_agree_letters_digits specModel
    [0x61, 0x62, 0x31, 0x41] (by decide)⟩
